import Mathlib

/-!
# code-soup: a "hello triangle" bootstrap (src/code-soup/main.cpp)

The program is one `main` that talks to two libraries, GLFW (window, input,
events) and OpenGL (shaders, buffers, drawing), plus two small helpers,
`processInput` and `framebuffer_size_callback`.

The embedding is explicit state passing over a `World`:

* `World.calls` is the sequence of library calls made so far, with their
  arguments, in program order;
* `World.out` is what has been inserted into `std::cout`, operand by operand
  (`char` buffers such as `infoLog` are sequences of bytes);
* the remaining fields are the part of the library state the program can
  influence (close flag, viewport, bindings, buffer stores, vertex attribute
  arrays) and the list of draws submitted.

Everything the libraries answer is taken from an `Env` (the answers of one
execution).  The render loop is bounded by an iteration budget so that `main`
is a total function; a budget that runs out yields `exit = none`, which stands
for "the loop is still running".
-/

namespace CodeSoup

/-! ## Values and constants -/

/-- A binary32 value that is exactly representable as `mant / 2 ^ exp`.  Every
float literal of the program (`0.0f`, `0.5f`, `-0.5f`, `1.0f`) is of this form,
so no rounding is involved. -/
structure GLfloat where
  mant : Int
  exp : Nat
deriving DecidableEq, Repr

/-- The rational number a `GLfloat` denotes. -/
def GLfloat.toRat (f : GLfloat) : ℚ := (f.mant : ℚ) / (2 : ℚ) ^ f.exp

/-- Literal `0.0f`. -/
def f0 : GLfloat := ⟨0, 0⟩
/-- Literal `1.0f`. -/
def f1 : GLfloat := ⟨1, 0⟩
/-- Literal `0.5f`. -/
def fHalf : GLfloat := ⟨1, 1⟩
/-- Literal `-0.5f`. -/
def fNegHalf : GLfloat := ⟨-1, 1⟩

/-- Line 10: `const unsigned int WIDTH = 800;`. -/
def WIDTH : Nat := 800
/-- Line 11: `const unsigned int HEIGHT = 600;`. -/
def HEIGHT : Nat := 600

/-- Lines 14-19, the text up to the terminating NUL. -/
def vertexShaderSource : String :=
  "#version 460 core\nlayout (location = 0) in vec3 aPos;\nvoid main()\n\x7b\n   gl_Position = vec4(aPos.x, aPos.y, aPos.z, 1.0);\n\x7d"

/-- Lines 21-26, the text up to the terminating NUL. -/
def fragmentShaderSource : String :=
  "#version 460 core\nout vec4 FragColor;\nvoid main()\n\x7b\n   FragColor = vec4(1.0f, 1.0f, 0.0f, 1.0f);\n\x7d\n"

/-- Size of a `float` in bytes, `sizeof(float)`. -/
def sizeofFloat : Nat := 4

-- Constants of glfw3.h
def GLFW_CONTEXT_VERSION_MAJOR : Nat := 0x00022002
def GLFW_CONTEXT_VERSION_MINOR : Nat := 0x00022003
def GLFW_OPENGL_FORWARD_COMPAT : Nat := 0x00022006
def GLFW_OPENGL_PROFILE : Nat := 0x00022008
def GLFW_OPENGL_CORE_PROFILE : Nat := 0x00032001
def GLFW_KEY_ESCAPE : Nat := 256
def GLFW_PRESS : Int := 1

-- Constants of glad.h
def GL_FALSE : Nat := 0
def GL_TRUE : Nat := 1
def GL_TRIANGLES : Nat := 0x0004
def GL_FLOAT : Nat := 0x1406
def GL_COLOR_BUFFER_BIT : Nat := 0x00004000
def GL_ARRAY_BUFFER : Nat := 0x8892
def GL_STATIC_DRAW : Nat := 0x88E4
def GL_FRAGMENT_SHADER : Nat := 0x8B30
def GL_VERTEX_SHADER : Nat := 0x8B31
def GL_COMPILE_STATUS : Nat := 0x8B81
def GL_LINK_STATUS : Nat := 0x8B82

/-! ## Calls, output, environment, state -/

/-- One library call with the arguments the program passed. -/
inductive Call where
  | glfwInit
  | glfwWindowHint (hint value : Nat)
  | glfwCreateWindow (width height : Nat) (title : String) (monitor share : Nat)
  | glfwTerminate
  | glfwMakeContextCurrent (window : Nat)
  | glfwSetFramebufferSizeCallback (window : Nat)
  | gladLoadGLLoader
  | glViewport (x y width height : Int)
  | glCreateShader (kind : Nat)
  | glShaderSource (shader count : Nat) (source : String)
  | glCompileShader (shader : Nat)
  | glGetShaderiv (shader pname : Nat)
  | glGetShaderInfoLog (shader bufSize : Nat)
  | glCreateProgram
  | glAttachShader (program shader : Nat)
  | glLinkProgram (program : Nat)
  | glGetProgramiv (program pname : Nat)
  | glGetProgramInfoLog (program bufSize : Nat)
  | glDeleteShader (shader : Nat)
  | glGenBuffers (n : Nat)
  | glBindBuffer (target buffer : Nat)
  | glBufferData (target size : Nat) (data : List GLfloat) (usage : Nat)
  | glVertexAttribPointer (index size type normalized stride offset : Nat)
  | glEnableVertexAttribArray (index : Nat)
  | glGenVertexArrays (n : Nat)
  | glBindVertexArray (array : Nat)
  | glfwWindowShouldClose (window : Nat)
  | glfwGetKey (window key : Nat)
  | glfwSetWindowShouldClose (window : Nat) (value : Int)
  | glClearColor (r g b a : GLfloat)
  | glClear (mask : Nat)
  | glUseProgram (program : Nat)
  | glDrawArrays (mode first count : Nat)
  | glfwSwapBuffers (window : Nat)
  | glfwPollEvents
deriving DecidableEq, Repr

/-- One operand inserted into `std::cout`: a string literal, the content of a
`char` buffer (bytes), or `std::endl`. -/
inductive Out where
  | str (s : String)
  | chars (buf : List UInt8)
  | endl
deriving DecidableEq, Repr

/-- The bytes of a string literal. -/
def utf8 (s : String) : List UInt8 := s.data.flatMap String.utf8EncodeChar

/-- The bytes an operand puts on standard output. -/
def Out.text : Out → List UInt8
  | .str s => utf8 s
  | .chars buf => buf
  | .endl => [10]

/-- The bytes on standard output. -/
def render (o : List Out) : List UInt8 := o.flatMap Out.text

/-- A window-system event handed out by `glfwPollEvents`. -/
inductive Event where
  | close
  | resize (width height : Int)
deriving DecidableEq, Repr

/-- The answers the libraries give in one execution.  Object names, statuses
and logs are whatever the driver returns; `keyState n k` is the cached state of
key `k` after `n` rounds of event processing and `events n` are the events the
`n`-th call of `glfwPollEvents` (counting from 0) hands out. -/
structure Env where
  /-- Whether `__APPLE__` is defined. -/
  apple : Bool
  /-- Result of `glfwCreateWindow`; `0` is `NULL`. -/
  createWindow : Nat
  /-- Result of `gladLoadGLLoader`. -/
  gladLoad : Int
  /-- Result of `glCreateShader`, by shader kind. -/
  createShader : Nat → Nat
  /-- Result of `glGetShaderiv`, by shader name and parameter. -/
  shaderiv : Nat → Nat → Int
  /-- Info log of a shader object, as bytes. -/
  shaderLog : Nat → List UInt8
  /-- Result of `glCreateProgram`. -/
  createProgram : Nat
  /-- Result of `glGetProgramiv`, by program name and parameter. -/
  programiv : Nat → Nat → Int
  /-- Info log of a program object, as bytes. -/
  programLog : Nat → List UInt8
  /-- Name returned by `glGenBuffers`. -/
  genBuffer : Nat
  /-- Name returned by `glGenVertexArrays`. -/
  genVertexArray : Nat
  keyState : Nat → Nat → Int
  events : Nat → List Event

/-- State of one generic vertex attribute array of a vertex array object. -/
structure Attrib where
  enabled : Bool
  buffer : Nat
  size : Nat
  type : Nat
  normalized : Nat
  stride : Nat
  offset : Nat
deriving DecidableEq, Repr

/-- A viewport rectangle. -/
structure Viewport where
  x : Int
  y : Int
  width : Int
  height : Int
deriving DecidableEq, Repr

/-- What one `glDrawArrays` submits: its arguments, the program in use, the
bound vertex array with its attribute 0, the data store that attribute reads,
and the vertices fetched through it. -/
structure Draw where
  mode : Nat
  first : Nat
  count : Nat
  program : Nat
  array : Nat
  attrib : Attrib
  store : List GLfloat
  vertices : List (List GLfloat)
deriving DecidableEq, Repr

/-- Program-visible state: the two logs (`calls`, `out`), the draws submitted,
and the library state the calls set. -/
structure World where
  calls : List Call
  out : List Out
  draws : List Draw
  /-- Number of completed `glfwPollEvents` calls. -/
  polls : Nat
  /-- Close flag of the window. -/
  shouldClose : Int
  /-- Whether `framebuffer_size_callback` is registered. -/
  resizeCallback : Bool
  viewport : Viewport
  clearColor : GLfloat × GLfloat × GLfloat × GLfloat
  currentProgram : Nat
  /-- Buffer bound to `GL_ARRAY_BUFFER`. -/
  arrayBuffer : Nat
  /-- Bound vertex array object. -/
  vertexArray : Nat
  /-- Data store of each buffer object. -/
  buffers : Nat → List GLfloat
  /-- Attribute arrays of each vertex array object, by index. -/
  attribs : Nat → Nat → Attrib

/-- State at process start. -/
def World.init : World where
  calls := []
  out := []
  draws := []
  polls := 0
  shouldClose := 0
  resizeCallback := false
  viewport := ⟨0, 0, 0, 0⟩
  clearColor := (f0, f0, f0, f0)
  currentProgram := 0
  arrayBuffer := 0
  vertexArray := 0
  buffers := fun _ => []
  attribs := fun _ _ => ⟨false, 0, 4, GL_FLOAT, 0, 0, 0⟩

/-- Append a call to the log. -/
def World.log (c : Call) (w : World) : World := { w with calls := w.calls ++ [c] }

/-- Statement `std::cout << a << b << ...;`. -/
def cout (items : List Out) (w : World) : World := { w with out := w.out ++ items }

/-! ## The library functions the program calls

Each one logs the call, applies its effect on the state, and returns the
answer of the environment where the function has a result. -/

def glfwInit (w : World) : World := w.log .glfwInit

def glfwWindowHint (hint value : Nat) (w : World) : World :=
  w.log (.glfwWindowHint hint value)

/-- A new window has its close flag cleared. -/
def glfwCreateWindow (env : Env) (width height : Nat) (title : String) (monitor share : Nat)
    (w : World) : Nat × World :=
  (env.createWindow,
    { w.log (.glfwCreateWindow width height title monitor share) with shouldClose := 0 })

def glfwTerminate (w : World) : World := w.log .glfwTerminate

def glfwMakeContextCurrent (window : Nat) (w : World) : World :=
  w.log (.glfwMakeContextCurrent window)

/-- The only callback the program has is `framebuffer_size_callback`. -/
def glfwSetFramebufferSizeCallback (window : Nat) (w : World) : World :=
  { w.log (.glfwSetFramebufferSizeCallback window) with resizeCallback := true }

def gladLoadGLLoader (env : Env) (w : World) : Int × World :=
  (env.gladLoad, w.log .gladLoadGLLoader)

/-- Makes the requested rectangle the viewport. -/
def glViewport (x y width height : Int) (w : World) : World :=
  { w.log (.glViewport x y width height) with viewport := ⟨x, y, width, height⟩ }

def glCreateShader (env : Env) (kind : Nat) (w : World) : Nat × World :=
  (env.createShader kind, w.log (.glCreateShader kind))

def glShaderSource (shader count : Nat) (source : String) (w : World) : World :=
  w.log (.glShaderSource shader count source)

def glCompileShader (shader : Nat) (w : World) : World := w.log (.glCompileShader shader)

def glGetShaderiv (env : Env) (shader pname : Nat) (w : World) : Int × World :=
  (env.shaderiv shader pname, w.log (.glGetShaderiv shader pname))

/-- The C string that starts at `bytes`: the bytes before the first NUL. -/
def cString (bytes : List UInt8) : List UInt8 := bytes.takeWhile (fun b => b ≠ 0)

/-- The C string a `char` buffer of `bufSize` bytes holds after an info log has
been copied into it: the log, cut after `bufSize - 1` bytes so that the
terminating NUL still fits. -/
def infoLogBuffer (log : List UInt8) (bufSize : Nat) : List UInt8 :=
  (cString log).take (bufSize - 1)

/-- The result is the content of the caller's buffer `infoLog`. -/
def glGetShaderInfoLog (env : Env) (shader bufSize : Nat) (w : World) :
    List UInt8 × World :=
  (infoLogBuffer (env.shaderLog shader) bufSize, w.log (.glGetShaderInfoLog shader bufSize))

def glCreateProgram (env : Env) (w : World) : Nat × World :=
  (env.createProgram, w.log .glCreateProgram)

def glAttachShader (program shader : Nat) (w : World) : World :=
  w.log (.glAttachShader program shader)

def glLinkProgram (program : Nat) (w : World) : World := w.log (.glLinkProgram program)

def glGetProgramiv (env : Env) (program pname : Nat) (w : World) : Int × World :=
  (env.programiv program pname, w.log (.glGetProgramiv program pname))

/-- The result is the content of the caller's buffer `infoLog`. -/
def glGetProgramInfoLog (env : Env) (program bufSize : Nat) (w : World) :
    List UInt8 × World :=
  (infoLogBuffer (env.programLog program) bufSize, w.log (.glGetProgramInfoLog program bufSize))

def glDeleteShader (shader : Nat) (w : World) : World := w.log (.glDeleteShader shader)

def glGenBuffers (env : Env) (n : Nat) (w : World) : Nat × World :=
  (env.genBuffer, w.log (.glGenBuffers n))

/-- Binds `buffer` to `target`; only `GL_ARRAY_BUFFER` is tracked. -/
def glBindBuffer (target buffer : Nat) (w : World) : World :=
  { w.log (.glBindBuffer target buffer) with
    arrayBuffer := if target = GL_ARRAY_BUFFER then buffer else w.arrayBuffer }

/-- Replaces the data store of the buffer bound to `target` by the first `size`
bytes of `data`. -/
def glBufferData (target size : Nat) (data : List GLfloat) (usage : Nat) (w : World) : World :=
  { w.log (.glBufferData target size data usage) with
    buffers := fun b =>
      if target = GL_ARRAY_BUFFER ∧ b = w.arrayBuffer then data.take (size / sizeofFloat)
      else w.buffers b }

/-- Records, in the bound vertex array, where attribute `index` is read from:
the buffer now bound to `GL_ARRAY_BUFFER`, with the given layout. -/
def glVertexAttribPointer (index size type normalized stride offset : Nat) (w : World) :
    World :=
  { w.log (.glVertexAttribPointer index size type normalized stride offset) with
    attribs := fun a i =>
      if a = w.vertexArray ∧ i = index then
        { enabled := (w.attribs a i).enabled, buffer := w.arrayBuffer, size := size,
          type := type, normalized := normalized, stride := stride, offset := offset }
      else w.attribs a i }

/-- Enables attribute `index` of the bound vertex array. -/
def glEnableVertexAttribArray (index : Nat) (w : World) : World :=
  { w.log (.glEnableVertexAttribArray index) with
    attribs := fun a i =>
      if a = w.vertexArray ∧ i = index then { w.attribs a i with enabled := true }
      else w.attribs a i }

def glGenVertexArrays (env : Env) (n : Nat) (w : World) : Nat × World :=
  (env.genVertexArray, w.log (.glGenVertexArrays n))

def glBindVertexArray (array : Nat) (w : World) : World :=
  { w.log (.glBindVertexArray array) with vertexArray := array }

/-- Reads the close flag of the window. -/
def glfwWindowShouldClose (window : Nat) (w : World) : Int × World :=
  (w.shouldClose, w.log (.glfwWindowShouldClose window))

/-- The cached state of `key` as of the last event processing. -/
def glfwGetKey (env : Env) (window key : Nat) (w : World) : Int × World :=
  (env.keyState w.polls key, w.log (.glfwGetKey window key))

/-- Writes the close flag of the window. -/
def glfwSetWindowShouldClose (window : Nat) (value : Int) (w : World) : World :=
  { w.log (.glfwSetWindowShouldClose window value) with shouldClose := value }

def glClearColor (r g b a : GLfloat) (w : World) : World :=
  { w.log (.glClearColor r g b a) with clearColor := (r, g, b, a) }

def glClear (mask : Nat) (w : World) : World := w.log (.glClear mask)

def glUseProgram (program : Nat) (w : World) : World :=
  { w.log (.glUseProgram program) with currentProgram := program }

/-- Components of vertex `i` of an attribute array read from `store`; a stride
of 0 means tightly packed. -/
def fetchVertex (store : List GLfloat) (a : Attrib) (i : Nat) : List GLfloat :=
  let stride := if a.stride = 0 then a.size * sizeofFloat else a.stride
  (store.drop ((a.offset + i * stride) / sizeofFloat)).take a.size

/-- Submits `count` vertices starting at `first`, fetched through attribute 0
of the bound vertex array. -/
def glDrawArrays (mode first count : Nat) (w : World) : World :=
  let a := w.attribs w.vertexArray 0
  let store := w.buffers a.buffer
  { w.log (.glDrawArrays mode first count) with
    draws := w.draws ++
      [{ mode := mode, first := first, count := count, program := w.currentProgram,
         array := w.vertexArray, attrib := a, store := store,
         vertices := (List.range count).map fun i => fetchVertex store a (first + i) }] }

def glfwSwapBuffers (window : Nat) (w : World) : World := w.log (.glfwSwapBuffers window)

/-! ## The program -/

/-- Lines 183-187. -/
def framebuffer_size_callback (window : Nat) (width height : Int) (w : World) : World :=
  let _ := window
  glViewport 0 0 width height w

/-- What the window system does with one event: a close request sets the close
flag, a resize runs the registered framebuffer-size callback. -/
def dispatch (env : Env) (e : Event) (w : World) : World :=
  match e with
  | .close => { w with shouldClose := 1 }
  | .resize width height =>
    if w.resizeCallback then framebuffer_size_callback env.createWindow width height w else w

/-- Processes the pending events of this round, in order. -/
def glfwPollEvents (env : Env) (w : World) : World :=
  let w1 := w.log .glfwPollEvents
  let w2 := (env.events w.polls).foldl (fun acc e => dispatch env e acc) w1
  { w2 with polls := w2.polls + 1 }

/-- Lines 174-180. -/
def processInput (env : Env) (window : Nat) (w : World) : World :=
  let (key, w) := glfwGetKey env window GLFW_KEY_ESCAPE w
  if key = GLFW_PRESS then glfwSetWindowShouldClose window 1 w else w

/-- Lines 119-123. -/
def vertices : List GLfloat :=
  [fNegHalf, fNegHalf, f0,
   fHalf, fNegHalf, f0,
   f0, fHalf, f0]

/-- Lines 149-165; the result is `true` when the loop condition became false
within `fuel` evaluations of it. -/
def renderLoop (env : Env) (window shaderProgram VAO : Nat) : Nat → World → Bool × World
  | 0, w => (false, w)
  | fuel + 1, w =>
    let (close, w) := glfwWindowShouldClose window w
    if close ≠ 0 then (true, w)
    else
      let w := processInput env window w
      let w := glClearColor f1 f0 f1 f1 w
      let w := glClear GL_COLOR_BUFFER_BIT w
      let w := glUseProgram shaderProgram w
      let w := glBindVertexArray VAO w
      let w := glDrawArrays GL_TRIANGLES 0 3 w
      let w := glfwSwapBuffers window w
      let w := glfwPollEvents env w
      renderLoop env window shaderProgram VAO fuel w

/-- Outcome of `main`: the exit status (`none` while the loop is still running)
and the state reached. -/
structure Result where
  exit : Option Int
  world : World

/-- Lines 70-117 of `main`: viewport, the two shaders, the program; the result
is `shaderProgram`. -/
def mainShaders (env : Env) (w : World) : Nat × World :=
  let w := glViewport 0 0 WIDTH HEIGHT w
  let (vertexShader, w) := glCreateShader env GL_VERTEX_SHADER w
  let w := glShaderSource vertexShader 1 vertexShaderSource w
  let w := glCompileShader vertexShader w
  let (success, w) := glGetShaderiv env vertexShader GL_COMPILE_STATUS w
  let w :=
    if success = 0 then
      let (infoLog, w) := glGetShaderInfoLog env vertexShader 512 w
      cout [.str "vertex shader failed to compile\n", .chars infoLog, .endl] w
    else w
  let (fragmentShader, w) := glCreateShader env GL_FRAGMENT_SHADER w
  let w := glShaderSource fragmentShader 1 fragmentShaderSource w
  let w := glCompileShader fragmentShader w
  let (success, w) := glGetShaderiv env fragmentShader GL_COMPILE_STATUS w
  let w :=
    if success = 0 then
      let (infoLog, w) := glGetShaderInfoLog env fragmentShader 512 w
      cout [.str "fragment shader failed to compile\n", .chars infoLog, .endl] w
    else w
  let (shaderProgram, w) := glCreateProgram env w
  let w := glAttachShader shaderProgram vertexShader w
  let w := glAttachShader shaderProgram fragmentShader w
  let w := glLinkProgram shaderProgram w
  let (success, w) := glGetProgramiv env shaderProgram GL_LINK_STATUS w
  let w :=
    if success = 0 then
      let (infoLog, w) := glGetProgramInfoLog env shaderProgram 512 w
      cout [.str "shader program failed to link\n", .chars infoLog, .endl] w
    else w
  let w := glDeleteShader vertexShader w
  let w := glDeleteShader fragmentShader w
  (shaderProgram, w)

/-- Lines 119-144 of `main`: the vertex buffer and the vertex array; the result
is `VAO`. -/
def mainGeometry (env : Env) (w : World) : Nat × World :=
  let (VBO, w) := glGenBuffers env 1 w
  let w := glBindBuffer GL_ARRAY_BUFFER VBO w
  let w := glBufferData GL_ARRAY_BUFFER (vertices.length * sizeofFloat) vertices GL_STATIC_DRAW w
  let w := glBindBuffer GL_ARRAY_BUFFER VBO w
  let w := glBufferData GL_ARRAY_BUFFER (vertices.length * sizeofFloat) vertices GL_STATIC_DRAW w
  let w := glVertexAttribPointer 0 3 GL_FLOAT GL_FALSE (3 * sizeofFloat) 0 w
  let w := glEnableVertexAttribArray 0 w
  let (VAO, w) := glGenVertexArrays env 1 w
  let w := glBindVertexArray VAO w
  let w := glBindBuffer GL_ARRAY_BUFFER VBO w
  let w := glBufferData GL_ARRAY_BUFFER (vertices.length * sizeofFloat) vertices GL_STATIC_DRAW w
  let w := glVertexAttribPointer 0 3 GL_FLOAT GL_FALSE (3 * sizeofFloat) 0 w
  let w := glEnableVertexAttribArray 0 w
  (VAO, w)

/-- Lines 29-171.  `fuel` bounds the number of times the loop condition is
evaluated. -/
def main (env : Env) (fuel : Nat) : Result :=
  let w := World.init
  let w := glfwInit w
  let w := glfwWindowHint GLFW_CONTEXT_VERSION_MAJOR 3 w
  let w := glfwWindowHint GLFW_CONTEXT_VERSION_MINOR 3 w
  let w := glfwWindowHint GLFW_OPENGL_PROFILE GLFW_OPENGL_CORE_PROFILE w
  let w := if env.apple then glfwWindowHint GLFW_OPENGL_FORWARD_COMPAT GL_TRUE w else w
  let (window, w) := glfwCreateWindow env WIDTH HEIGHT "soup" 0 0 w
  if window = 0 then
    let w := cout [.str "failed to create glfw window", .endl] w
    let w := glfwTerminate w
    ⟨some (-1), w⟩
  else
    let w := glfwMakeContextCurrent window w
    let w := glfwSetFramebufferSizeCallback window w
    let (loaded, w) := gladLoadGLLoader env w
    if loaded = 0 then
      let w := cout [.str "failed to initialize glad", .endl] w
      ⟨some (-1), w⟩
    else
      let (shaderProgram, w) := mainShaders env w
      let (VAO, w) := mainGeometry env w
      let (closed, w) := renderLoop env window shaderProgram VAO fuel w
      if closed then
        let w := glfwTerminate w
        ⟨some 0, w⟩
      else ⟨none, w⟩

/-! ## Auxiliary definitions: the traces and states the theorems speak about -/

/-- Calls of lines 32-45. -/
def startupCalls (env : Env) : List Call :=
  [.glfwInit,
   .glfwWindowHint GLFW_CONTEXT_VERSION_MAJOR 3,
   .glfwWindowHint GLFW_CONTEXT_VERSION_MINOR 3,
   .glfwWindowHint GLFW_OPENGL_PROFILE GLFW_OPENGL_CORE_PROFILE] ++
  (if env.apple then [.glfwWindowHint GLFW_OPENGL_FORWARD_COMPAT GL_TRUE] else []) ++
  [.glfwCreateWindow WIDTH HEIGHT "soup" 0 0]

/-- Calls of lines 56-62. -/
def contextCalls (env : Env) : List Call :=
  [.glfwMakeContextCurrent env.createWindow,
   .glfwSetFramebufferSizeCallback env.createWindow,
   .gladLoadGLLoader]

/-- Calls that create, compile and check one shader (lines 73-89, 91-101). -/
def compileCalls (env : Env) (kind : Nat) (source : String) : List Call :=
  [.glCreateShader kind,
   .glShaderSource (env.createShader kind) 1 source,
   .glCompileShader (env.createShader kind),
   .glGetShaderiv (env.createShader kind) GL_COMPILE_STATUS] ++
  (if env.shaderiv (env.createShader kind) GL_COMPILE_STATUS = 0
    then [.glGetShaderInfoLog (env.createShader kind) 512] else [])

/-- Calls between the link and the deletion of the shaders (lines 110-114). -/
def linkCheckCalls (env : Env) : List Call :=
  [.glGetProgramiv env.createProgram GL_LINK_STATUS] ++
  (if env.programiv env.createProgram GL_LINK_STATUS = 0
    then [.glGetProgramInfoLog env.createProgram 512] else [])

/-- Calls of lines 125-144. -/
def geometryCalls (env : Env) : List Call :=
  [.glGenBuffers 1,
   .glBindBuffer GL_ARRAY_BUFFER env.genBuffer,
   .glBufferData GL_ARRAY_BUFFER 36 vertices GL_STATIC_DRAW,
   .glBindBuffer GL_ARRAY_BUFFER env.genBuffer,
   .glBufferData GL_ARRAY_BUFFER 36 vertices GL_STATIC_DRAW,
   .glVertexAttribPointer 0 3 GL_FLOAT GL_FALSE 12 0,
   .glEnableVertexAttribArray 0,
   .glGenVertexArrays 1,
   .glBindVertexArray env.genVertexArray,
   .glBindBuffer GL_ARRAY_BUFFER env.genBuffer,
   .glBufferData GL_ARRAY_BUFFER 36 vertices GL_STATIC_DRAW,
   .glVertexAttribPointer 0 3 GL_FLOAT GL_FALSE 12 0,
   .glEnableVertexAttribArray 0]

/-- Calls of lines 70-117, up to and including the deletion of the shaders. -/
def shaderCalls (env : Env) : List Call :=
  [.glViewport 0 0 800 600] ++
  compileCalls env GL_VERTEX_SHADER vertexShaderSource ++
  compileCalls env GL_FRAGMENT_SHADER fragmentShaderSource ++
  [.glCreateProgram,
   .glAttachShader env.createProgram (env.createShader GL_VERTEX_SHADER),
   .glAttachShader env.createProgram (env.createShader GL_FRAGMENT_SHADER),
   .glLinkProgram env.createProgram] ++
  linkCheckCalls env ++
  [.glDeleteShader (env.createShader GL_VERTEX_SHADER),
   .glDeleteShader (env.createShader GL_FRAGMENT_SHADER)]

/-- Calls of lines 70-144. -/
def setupCalls (env : Env) : List Call := shaderCalls env ++ geometryCalls env

/-- Diagnostic of one step: when the status is 0, the message, the info log as
retrieved and a line end; nothing when the status is non-zero. -/
def diagnostic (status : Int) (message : String) (infoLog : List UInt8) : List Out :=
  if status = 0 then [.str message, .chars infoLog, .endl] else []

/-- Info-log retrievals of lines 87, 99 and 112: one for each failed step. -/
def infoLogCalls (env : Env) : List Call :=
  (if env.shaderiv (env.createShader GL_VERTEX_SHADER) GL_COMPILE_STATUS = 0
    then [.glGetShaderInfoLog (env.createShader GL_VERTEX_SHADER) 512] else []) ++
  (if env.shaderiv (env.createShader GL_FRAGMENT_SHADER) GL_COMPILE_STATUS = 0
    then [.glGetShaderInfoLog (env.createShader GL_FRAGMENT_SHADER) 512] else []) ++
  (if env.programiv env.createProgram GL_LINK_STATUS = 0
    then [.glGetProgramInfoLog env.createProgram 512] else [])

/-- Attribute 0 as the last `glVertexAttribPointer`/`glEnableVertexAttribArray` leave it. -/
def triangleAttrib (env : Env) : Attrib :=
  { enabled := true, buffer := env.genBuffer, size := 3, type := GL_FLOAT,
    normalized := GL_FALSE, stride := 12, offset := 0 }

/-- Output of lines 84-114. -/
def diagnostics (env : Env) : List Out :=
  diagnostic (env.shaderiv (env.createShader GL_VERTEX_SHADER) GL_COMPILE_STATUS)
    "vertex shader failed to compile\n"
    (infoLogBuffer (env.shaderLog (env.createShader GL_VERTEX_SHADER)) 512) ++
  diagnostic (env.shaderiv (env.createShader GL_FRAGMENT_SHADER) GL_COMPILE_STATUS)
    "fragment shader failed to compile\n"
    (infoLogBuffer (env.shaderLog (env.createShader GL_FRAGMENT_SHADER)) 512) ++
  diagnostic (env.programiv env.createProgram GL_LINK_STATUS)
    "shader program failed to link\n"
    (infoLogBuffer (env.programLog env.createProgram) 512)

/-- Calls made by the callbacks that one round of events triggers. -/
def callbackCalls (evs : List Event) : List Call :=
  evs.flatMap fun e =>
    match e with
    | .resize width height => [.glViewport 0 0 width height]
    | .close => []

/-- Viewport after a round of events, starting from `v`. -/
def viewportAfter (evs : List Event) (v : Viewport) : Viewport :=
  evs.foldl (fun acc e =>
    match e with
    | .resize width height => ⟨0, 0, width, height⟩
    | .close => acc) v

/-- The iteration as section 4.3 of the specification words it: (0) the loop
condition is checked, (1) the escape key is queried and close is requested if it
is pressed, (2) the clear colour is set to (1,0,1,1) and the colour buffer is
cleared, (3) the program and the vertex array are bound, (4) one draw call is
issued, (5) buffers are swapped and events are polled; polling runs the resize
callback for each resize event of that round. -/
def specIteration (env : Env) (i : Nat) : List Call :=
  [.glfwWindowShouldClose env.createWindow,
   .glfwGetKey env.createWindow GLFW_KEY_ESCAPE] ++
  (if env.keyState i GLFW_KEY_ESCAPE = GLFW_PRESS
    then [.glfwSetWindowShouldClose env.createWindow 1] else []) ++
  [.glClearColor f1 f0 f1 f1,
   .glClear GL_COLOR_BUFFER_BIT,
   .glUseProgram env.createProgram,
   .glBindVertexArray env.genVertexArray,
   .glDrawArrays GL_TRIANGLES 0 3,
   .glfwSwapBuffers env.createWindow,
   .glfwPollEvents] ++
  callbackCalls (env.events i)

/-- Body of the loop, lines 152-164. -/
def frame (env : Env) (window shaderProgram VAO : Nat) (w : World) : World :=
  glfwPollEvents env (glfwSwapBuffers window (glDrawArrays GL_TRIANGLES 0 3
    (glBindVertexArray VAO (glUseProgram shaderProgram (glClear GL_COLOR_BUFFER_BIT
      (glClearColor f1 f0 f1 f1 (processInput env window w)))))))

/-- Whether iteration `i` raises the close flag: escape is down when
`processInput` runs, or the events of that round contain a close request. -/
def closes (env : Env) (i : Nat) : Prop :=
  env.keyState i GLFW_KEY_ESCAPE = GLFW_PRESS ∨ Event.close ∈ env.events i

instance (env : Env) (i : Nat) : Decidable (closes env i) := by
  unfold closes; exact inferInstance

/-- The draw that an iteration submits when attribute 0 of the vertex array is
`a` and the buffer it reads holds `store`. -/
def drawOf (shaderProgram VAO : Nat) (a : Attrib) (store : List GLfloat) : Draw :=
  { mode := GL_TRIANGLES, first := 0, count := 3, program := shaderProgram, array := VAO,
    attrib := a, store := store,
    vertices := [fetchVertex store a 0, fetchVertex store a 1, fetchVertex store a 2] }

/-- Viewport after the event rounds `start, ..., start + n - 1`. -/
def viewportRounds (env : Env) (start n : Nat) (v : Viewport) : Viewport :=
  (List.range' start n).foldl (fun acc i => viewportAfter (env.events i) acc) v

/-- State after line 45. -/
def startWorld (env : Env) : World :=
  (glfwCreateWindow env WIDTH HEIGHT "soup" 0 0
    (if env.apple then glfwWindowHint GLFW_OPENGL_FORWARD_COMPAT GL_TRUE
        (glfwWindowHint GLFW_OPENGL_PROFILE GLFW_OPENGL_CORE_PROFILE
          (glfwWindowHint GLFW_CONTEXT_VERSION_MINOR 3
            (glfwWindowHint GLFW_CONTEXT_VERSION_MAJOR 3 (glfwInit World.init))))
      else glfwWindowHint GLFW_OPENGL_PROFILE GLFW_OPENGL_CORE_PROFILE
          (glfwWindowHint GLFW_CONTEXT_VERSION_MINOR 3
            (glfwWindowHint GLFW_CONTEXT_VERSION_MAJOR 3 (glfwInit World.init))))).2

/-- State after line 62, when the window exists. -/
def contextWorld (env : Env) : World :=
  (gladLoadGLLoader env (glfwSetFramebufferSizeCallback env.createWindow
    (glfwMakeContextCurrent env.createWindow (startWorld env)))).2

/-- State after line 144. -/
def readyWorld (env : Env) : World :=
  (mainGeometry env (mainShaders env (contextWorld env)).2).2

/-- The draw of the triangle: three vertices read from the uploaded array. -/
def triangleDraw (env : Env) : Draw :=
  drawOf env.createProgram env.genVertexArray (triangleAttrib env) vertices

/-- Calls after the last iteration: the loop condition that turned out false,
then line 169. -/
def closingCalls (env : Env) : Option Int → List Call
  | some _ => [.glfwWindowShouldClose env.createWindow, .glfwTerminate]
  | none => []

/-! ## Predicates on calls and concrete environments -/

/-- Calls that only the render loop makes (lines 149-164 and `processInput`). -/
def isRenderLoopCall : Call → Bool
  | .glfwWindowShouldClose _ => true
  | .glfwGetKey _ _ => true
  | .glfwSetWindowShouldClose _ _ => true
  | .glClearColor _ _ _ _ => true
  | .glClear _ => true
  | .glUseProgram _ => true
  | .glDrawArrays _ _ _ => true
  | .glfwSwapBuffers _ => true
  | .glfwPollEvents => true
  | _ => false

/-- Calls that occur once the loop has been entered: those of the loop, the
rebinding of the vertex array, the viewport update of the resize callback and
the final `glfwTerminate`. -/
def isLoopPhaseCall : Call → Bool
  | .glBindVertexArray _ => true
  | .glViewport _ _ _ _ => true
  | .glfwTerminate => true
  | c => isRenderLoopCall c

/-- The shader object a call names, if it takes one. -/
def Call.shaderArg : Call → Option Nat
  | .glShaderSource s _ _ => some s
  | .glCompileShader s => some s
  | .glGetShaderiv s _ => some s
  | .glGetShaderInfoLog s _ => some s
  | .glAttachShader _ s => some s
  | .glDeleteShader s => some s
  | _ => none

/-- Retrieval of an info log. -/
def isInfoLogQuery : Call → Bool
  | .glGetShaderInfoLog _ _ => true
  | .glGetProgramInfoLog _ _ => true
  | _ => false

/-- A `glDrawArrays` call. -/
def isDraw : Call → Bool
  | .glDrawArrays _ _ _ => true
  | _ => false

/-- A `glBufferData` call. -/
def isBufferData : Call → Bool
  | .glBufferData _ _ _ _ => true
  | _ => false

/-- A `glDeleteShader` call. -/
def isDeleteShader : Call → Bool
  | .glDeleteShader _ => true
  | _ => false

/-- Two executions get the same answers except for the shader and program
status queries and info logs. -/
def sameButShaderStatus (e1 e2 : Env) : Prop :=
  e1.apple = e2.apple ∧ e1.createWindow = e2.createWindow ∧ e1.gladLoad = e2.gladLoad ∧
  e1.createShader = e2.createShader ∧ e1.createProgram = e2.createProgram ∧
  e1.genBuffer = e2.genBuffer ∧ e1.genVertexArray = e2.genVertexArray ∧
  e1.keyState = e2.keyState ∧ e1.events = e2.events

/-- An execution in which everything succeeds, the window is resized to
640x480 during the first iteration and escape is pressed in the second. -/
def envGood : Env where
  apple := false
  createWindow := 7
  gladLoad := 1
  createShader := fun kind => if kind = GL_VERTEX_SHADER then 1 else 2
  shaderiv := fun _ _ => 1
  shaderLog := fun _ => []
  createProgram := 3
  programiv := fun _ _ => 1
  programLog := fun _ => []
  genBuffer := 1
  genVertexArray := 1
  keyState := fun n _ => if n = 1 then 1 else 0
  events := fun n => if n = 0 then [.resize 640 480] else []

/-- Like `envGood`, but the vertex shader does not compile. -/
def envVertexFails : Env :=
  { envGood with
    shaderiv := fun s _ => if s = 1 then 0 else 1
    shaderLog := fun s => if s = 1 then utf8 "0:1(1): error: unexpected token" else [] }

/-- Like `envGood`, but the vertex shader does not compile and its info log has
600 bytes (600 times the letter x). -/
def envLongLog : Env :=
  { envGood with
    shaderiv := fun s _ => if s = 1 then 0 else 1
    shaderLog := fun s => if s = 1 then List.replicate 600 120 else [] }

/-- Like `envGood`, but the program does not link. -/
def envLinkFails : Env :=
  { envGood with
    programiv := fun _ _ => 0
    programLog := fun _ => utf8 "error: linking with uncompiled shader" }

/-- Like `envGood`, but no window can be created. -/
def envNoWindow : Env := { envGood with createWindow := 0 }

/-- A `glCreateProgram` call. -/
def isCreateProgram : Call → Bool
  | .glCreateProgram => true
  | _ => false

/-- A `glLinkProgram` call. -/
def isLinkProgram : Call → Bool
  | .glLinkProgram _ => true
  | _ => false

/-! ## Lemmas -/

theorem mainShaders_eq (env : Env) (w : World) :
    mainShaders env w =
      (env.createProgram,
        { w with calls := w.calls ++ shaderCalls env, out := w.out ++ diagnostics env,
                 viewport := ⟨0, 0, 800, 600⟩ }) := by
  by_cases hv : env.shaderiv (env.createShader GL_VERTEX_SHADER) GL_COMPILE_STATUS = 0 <;>
  by_cases hf : env.shaderiv (env.createShader GL_FRAGMENT_SHADER) GL_COMPILE_STATUS = 0 <;>
  by_cases hl : env.programiv env.createProgram GL_LINK_STATUS = 0 <;>
  simp [mainShaders, shaderCalls, compileCalls, linkCheckCalls, diagnostics, diagnostic, hv, hf,
    hl,
    glViewport, glCreateShader, glShaderSource, glCompileShader, glGetShaderiv,
    glGetShaderInfoLog, glCreateProgram, glAttachShader, glLinkProgram, glGetProgramiv,
    glGetProgramInfoLog, glDeleteShader, World.log, cout, WIDTH, HEIGHT]

theorem mainGeometry_calls (env : Env) (w : World) :
    (mainGeometry env w).2.calls = w.calls ++ geometryCalls env := by
  simp [mainGeometry, geometryCalls, glGenBuffers, glBindBuffer, glBufferData,
    glVertexAttribPointer, glEnableVertexAttribArray, glGenVertexArrays, glBindVertexArray,
    World.log, sizeofFloat, vertices]

theorem mainGeometry_state (env : Env) (w : World) :
    (mainGeometry env w).2.vertexArray = env.genVertexArray ∧
    (mainGeometry env w).2.attribs env.genVertexArray 0 = triangleAttrib env ∧
    (mainGeometry env w).2.buffers env.genBuffer = vertices ∧
    (mainGeometry env w).2.viewport = w.viewport ∧
    (mainGeometry env w).2.out = w.out ∧
    (mainGeometry env w).2.polls = w.polls ∧
    (mainGeometry env w).2.shouldClose = w.shouldClose ∧
    (mainGeometry env w).2.resizeCallback = w.resizeCallback ∧
    (mainGeometry env w).2.draws = w.draws := by
  simp [mainGeometry, triangleAttrib, glGenBuffers, glBindBuffer, glBufferData,
    glVertexAttribPointer, glEnableVertexAttribArray, glGenVertexArrays, glBindVertexArray,
    World.log, sizeofFloat, vertices, GL_FLOAT, GL_FALSE]

theorem dispatch_foldl (env : Env) (evs : List Event) (w : World)
    (hcb : w.resizeCallback = true) :
    evs.foldl (fun acc e => dispatch env e acc) w =
      { w with calls := w.calls ++ callbackCalls evs,
               shouldClose := if Event.close ∈ evs then 1 else w.shouldClose,
               viewport := viewportAfter evs w.viewport } := by
  induction evs generalizing w with
  | nil => simp [callbackCalls, viewportAfter]
  | cons e evs ih =>
    cases e with
    | close =>
      rw [List.foldl_cons, ih _ (by simpa [dispatch] using hcb)]
      simp [dispatch, callbackCalls, viewportAfter]
    | resize width height =>
      rw [List.foldl_cons, ih _ (by simp [dispatch, hcb, framebuffer_size_callback, glViewport, World.log])]
      simp [dispatch, hcb, framebuffer_size_callback, glViewport, World.log, callbackCalls,
        viewportAfter]

theorem glfwPollEvents_eq (env : Env) (w : World) (hcb : w.resizeCallback = true) :
    glfwPollEvents env w =
      { w with calls := w.calls ++ Call.glfwPollEvents :: callbackCalls (env.events w.polls),
               shouldClose := if Event.close ∈ env.events w.polls then 1 else w.shouldClose,
               viewport := viewportAfter (env.events w.polls) w.viewport,
               polls := w.polls + 1 } := by
  unfold glfwPollEvents
  simp only []
  rw [dispatch_foldl env _ _ (by simpa [World.log] using hcb)]
  simp [World.log]

theorem renderLoop_succ (env : Env) (window shaderProgram VAO fuel : Nat) (w : World) :
    renderLoop env window shaderProgram VAO (fuel + 1) w =
      if w.shouldClose ≠ 0 then (true, w.log (.glfwWindowShouldClose window))
      else renderLoop env window shaderProgram VAO fuel
        (frame env window shaderProgram VAO (w.log (.glfwWindowShouldClose window))) := by
  simp only [renderLoop, glfwWindowShouldClose, frame]

theorem processInput_eq (env : Env) (window : Nat) (w : World) :
    processInput env window w =
      { w with
        calls := w.calls ++ Call.glfwGetKey window GLFW_KEY_ESCAPE ::
          (if env.keyState w.polls GLFW_KEY_ESCAPE = GLFW_PRESS
            then [Call.glfwSetWindowShouldClose window 1] else []),
        shouldClose :=
          if env.keyState w.polls GLFW_KEY_ESCAPE = GLFW_PRESS then 1 else w.shouldClose } := by
  by_cases h : env.keyState w.polls GLFW_KEY_ESCAPE = GLFW_PRESS <;>
  simp [processInput, glfwGetKey, glfwSetWindowShouldClose, World.log, h]

theorem frame_eq (env : Env) (shaderProgram VAO : Nat) (w : World)
    (hcb : w.resizeCallback = true) :
    frame env env.createWindow shaderProgram VAO (w.log (.glfwWindowShouldClose env.createWindow)) =
      { w with
        calls := w.calls ++
          ([.glfwWindowShouldClose env.createWindow,
            .glfwGetKey env.createWindow GLFW_KEY_ESCAPE] ++
          (if env.keyState w.polls GLFW_KEY_ESCAPE = GLFW_PRESS
            then [.glfwSetWindowShouldClose env.createWindow 1] else []) ++
          [.glClearColor f1 f0 f1 f1,
           .glClear GL_COLOR_BUFFER_BIT,
           .glUseProgram shaderProgram,
           .glBindVertexArray VAO,
           .glDrawArrays GL_TRIANGLES 0 3,
           .glfwSwapBuffers env.createWindow,
           .glfwPollEvents] ++
          callbackCalls (env.events w.polls)),
        draws := w.draws ++
          [drawOf shaderProgram VAO (w.attribs VAO 0) (w.buffers (w.attribs VAO 0).buffer)],
        polls := w.polls + 1,
        shouldClose := if closes env w.polls then 1 else w.shouldClose,
        viewport := viewportAfter (env.events w.polls) w.viewport,
        clearColor := (f1, f0, f1, f1),
        currentProgram := shaderProgram,
        vertexArray := VAO } := by
  unfold frame
  rw [glfwPollEvents_eq env _ (by
    simp [glfwSwapBuffers, glDrawArrays, glBindVertexArray, glUseProgram, glClear, glClearColor,
      processInput_eq, World.log, hcb])]
  by_cases hk : env.keyState w.polls GLFW_KEY_ESCAPE = GLFW_PRESS <;>
  by_cases he : Event.close ∈ env.events w.polls <;>
  simp [glfwSwapBuffers, glDrawArrays, glBindVertexArray, glUseProgram, glClear, glClearColor,
    processInput_eq, World.log, closes, hk, he, drawOf, List.range_succ]

theorem renderLoop_spec (env : Env) (fuel : Nat) (w : World)
    (hcb : w.resizeCallback = true) :
    ∃ n, n ≤ fuel ∧
      (renderLoop env env.createWindow env.createProgram env.genVertexArray fuel w).2.calls =
        w.calls ++ (List.range' w.polls n).flatMap (specIteration env) ++
          (if (renderLoop env env.createWindow env.createProgram env.genVertexArray fuel w).1
            then [Call.glfwWindowShouldClose env.createWindow] else []) ∧
      (renderLoop env env.createWindow env.createProgram env.genVertexArray fuel w).2.draws =
        w.draws ++ List.replicate n
          (drawOf env.createProgram env.genVertexArray (w.attribs env.genVertexArray 0)
            (w.buffers (w.attribs env.genVertexArray 0).buffer)) ∧
      (renderLoop env env.createWindow env.createProgram env.genVertexArray fuel w).2.polls =
        w.polls + n ∧
      (renderLoop env env.createWindow env.createProgram env.genVertexArray fuel w).2.out =
        w.out ∧
      (renderLoop env env.createWindow env.createProgram env.genVertexArray fuel w).2.buffers =
        w.buffers ∧
      (renderLoop env env.createWindow env.createProgram env.genVertexArray fuel w).2.attribs =
        w.attribs ∧
      (renderLoop env env.createWindow env.createProgram env.genVertexArray fuel w).2.viewport =
        viewportRounds env w.polls n w.viewport ∧
      ((renderLoop env env.createWindow env.createProgram env.genVertexArray fuel w).1 = false →
        n = fuel) ∧
      ((renderLoop env env.createWindow env.createProgram env.genVertexArray fuel w).1 = true →
        (renderLoop env env.createWindow env.createProgram env.genVertexArray fuel w).2.shouldClose
          ≠ 0) := by
  induction fuel generalizing w with
  | zero => exact ⟨0, le_refl _, by simp [renderLoop, viewportRounds]⟩
  | succ fuel ih =>
    rw [renderLoop_succ]
    by_cases hc : w.shouldClose = 0
    · rw [if_neg (by simpa using hc)]
      have hf := frame_eq env env.createProgram env.genVertexArray w hcb
      obtain ⟨n, hn, h1, h2, h3, h4, h5, h6, h7, h8, h9⟩ :=
        ih (frame env env.createWindow env.createProgram env.genVertexArray
          (w.log (.glfwWindowShouldClose env.createWindow))) (by rw [hf]; exact hcb)
      refine ⟨n + 1, by omega, ?_, ?_, ?_, ?_, ?_, ?_, ?_, ?_, ?_⟩
      · rw [h1, hf]
        simp [List.range'_succ, specIteration, List.append_assoc]
      · rw [h2, hf]
        simp [List.replicate_succ]
      · rw [h3, hf]; simp; omega
      · rw [h4, hf]
      · rw [h5, hf]
      · rw [h6, hf]
      · rw [h7, hf]
        simp [viewportRounds, List.range'_succ]
      · intro h; rw [h8 h]
      · exact h9
    · rw [if_pos (by simpa using hc)]
      exact ⟨0, Nat.zero_le _, by simp [World.log, viewportRounds, hc]⟩

theorem main_eq (env : Env) (fuel : Nat) :
    main env fuel =
      if env.createWindow = 0 then
        ⟨some (-1), glfwTerminate
          (cout [.str "failed to create glfw window", .endl] (startWorld env))⟩
      else if env.gladLoad = 0 then
        ⟨some (-1), cout [.str "failed to initialize glad", .endl] (contextWorld env)⟩
      else if (renderLoop env env.createWindow env.createProgram env.genVertexArray fuel
          (readyWorld env)).1 then
        ⟨some 0, glfwTerminate (renderLoop env env.createWindow env.createProgram
          env.genVertexArray fuel (readyWorld env)).2⟩
      else
        ⟨none, (renderLoop env env.createWindow env.createProgram env.genVertexArray fuel
          (readyWorld env)).2⟩ := by
  rfl

theorem startWorld_eq (env : Env) :
    startWorld env = { World.init with calls := startupCalls env } := by
  cases h : env.apple <;>
  simp [startWorld, h, startupCalls, glfwCreateWindow, glfwWindowHint, glfwInit, World.log,
    World.init]

theorem contextWorld_eq (env : Env) :
    contextWorld env =
      { World.init with calls := startupCalls env ++ contextCalls env,
                        resizeCallback := true } := by
  simp [contextWorld, startWorld_eq, contextCalls, gladLoadGLLoader,
    glfwSetFramebufferSizeCallback, glfwMakeContextCurrent, World.log]

theorem readyWorld_calls (env : Env) :
    (readyWorld env).calls = startupCalls env ++ contextCalls env ++ setupCalls env := by
  simp [readyWorld, mainGeometry_calls, mainShaders_eq, contextWorld_eq, setupCalls]

theorem readyWorld_state (env : Env) :
    (readyWorld env).vertexArray = env.genVertexArray ∧
    (readyWorld env).attribs env.genVertexArray 0 = triangleAttrib env ∧
    (readyWorld env).buffers env.genBuffer = vertices ∧
    (readyWorld env).viewport = ⟨0, 0, 800, 600⟩ ∧
    (readyWorld env).out = diagnostics env ∧
    (readyWorld env).polls = 0 ∧
    (readyWorld env).shouldClose = 0 ∧
    (readyWorld env).resizeCallback = true ∧
    (readyWorld env).draws = [] := by
  obtain ⟨h1, h2, h3, h4, h5, h6, h7, h8, h9⟩ :=
    mainGeometry_state env (mainShaders env (contextWorld env)).2
  refine ⟨h1, h2, h3, ?_, ?_, ?_, ?_, ?_, ?_⟩
  · rw [readyWorld, h4, mainShaders_eq]
  · rw [readyWorld, h5, mainShaders_eq, contextWorld_eq]; simp [World.init]
  · rw [readyWorld, h6, mainShaders_eq, contextWorld_eq]; simp [World.init]
  · rw [readyWorld, h7, mainShaders_eq, contextWorld_eq]; simp [World.init]
  · rw [readyWorld, h8, mainShaders_eq, contextWorld_eq]
  · rw [readyWorld, h9, mainShaders_eq, contextWorld_eq]; simp [World.init]

/-- Everything `main` does once the window and the loader are there, after `n`
iterations of the loop. -/
theorem main_ok (env : Env) (fuel : Nat) (hw : env.createWindow ≠ 0) (hg : env.gladLoad ≠ 0) :
    ∃ n, n ≤ fuel ∧
      (main env fuel).world.calls =
        startupCalls env ++ contextCalls env ++ setupCalls env ++
          (List.range n).flatMap (specIteration env) ++ closingCalls env (main env fuel).exit ∧
      (main env fuel).world.draws = List.replicate n (triangleDraw env) ∧
      (main env fuel).world.polls = n ∧
      (main env fuel).world.out = diagnostics env ∧
      (main env fuel).world.buffers env.genBuffer = vertices ∧
      (main env fuel).world.attribs env.genVertexArray 0 = triangleAttrib env ∧
      (main env fuel).world.viewport = viewportRounds env 0 n ⟨0, 0, 800, 600⟩ ∧
      ((main env fuel).exit = some 0 ∨ ((main env fuel).exit = none ∧ n = fuel)) ∧
      ((main env fuel).exit = some 0 → (main env fuel).world.shouldClose ≠ 0) := by
  obtain ⟨s1, s2, s3, s4, s5, s6, s7, s8, s9⟩ := readyWorld_state env
  obtain ⟨n, hn, h1, h2, h3, h4, h5, h6, h7, h8, h9⟩ := renderLoop_spec env fuel (readyWorld env) s8
  have hb : (readyWorld env).buffers (triangleAttrib env).buffer = vertices := s3
  rw [readyWorld_calls, s6] at h1
  rw [s9, s2, hb, List.nil_append] at h2
  simp only [s4, s5, s6, Nat.zero_add] at h3 h4 h7
  refine ⟨n, hn, ?_⟩
  rw [main_eq, if_neg hw, if_neg hg]
  cases hr : (renderLoop env env.createWindow env.createProgram env.genVertexArray fuel
      (readyWorld env)).1
  · simp only [hr] at h1 h8 h9 ⊢
    simp [h1, h2, h3, h4, h5, h6, h7, h8, s2, s3, closingCalls, List.range_eq_range', triangleDraw,
      triangleAttrib]
  · simp only [hr] at h1 h8 h9 ⊢
    simp [glfwTerminate, World.log, h1, h2, h3, h4, h5, h6, h7, h9, s2, s3, closingCalls,
      List.range_eq_range', triangleDraw, triangleAttrib]

theorem main_fail (env : Env) (fuel : Nat) (h : env.createWindow = 0 ∨ env.gladLoad = 0) :
    (main env fuel).exit = some (-1) ∧ (main env fuel).world.draws = [] ∧
    (main env fuel).world.polls = 0 ∧
    ((main env fuel).world.calls = startupCalls env ++ [.glfwTerminate] ∨
      (main env fuel).world.calls = startupCalls env ++ contextCalls env) := by
  rw [main_eq]
  by_cases hw : env.createWindow = 0
  · simp [hw, glfwTerminate, cout, World.log, startWorld_eq, World.init]
  · have hg : env.gladLoad = 0 := by
      rcases h with h | h
      · exact absurd h hw
      · exact h
    simp [hw, hg, cout, contextWorld_eq, World.init]

/-- The loop ends one check after the first iteration that raises the flag. -/
theorem renderLoop_exit (env : Env) (n : Nat) :
    ∀ (fuel : Nat) (w : World), w.resizeCallback = true → w.shouldClose = 0 → w.polls ≤ n →
      (∀ j, w.polls ≤ j → j < n → ¬ closes env j) → closes env n → n - w.polls + 2 ≤ fuel →
      (renderLoop env env.createWindow env.createProgram env.genVertexArray fuel w).1 = true ∧
      (renderLoop env env.createWindow env.createProgram env.genVertexArray fuel w).2.polls =
        n + 1 := by
  intro fuel
  induction fuel with
  | zero => intro w _ _ _ _ _ hf; omega
  | succ fuel ih =>
    intro w hcb hc hle hno hcl hf
    rw [renderLoop_succ, if_neg (by simpa using hc)]
    have hfr := frame_eq env env.createProgram env.genVertexArray w hcb
    by_cases hn : w.polls = n
    · obtain ⟨f, rfl⟩ : ∃ f, fuel = f + 1 := ⟨fuel - 1, by omega⟩
      rw [renderLoop_succ, hfr]
      simp [hn, hcl, World.log]
    · have hcl0 : ¬ closes env w.polls := hno _ (le_refl _) (by omega)
      refine ih _ (by rw [hfr]; exact hcb) (by rw [hfr]; simp [hcl0, hc]) (by rw [hfr]; simp; omega)
        (fun j h1 h2 => hno j (by rw [hfr] at h1; simp at h1; omega) h2) hcl
        (by rw [hfr]; simp; omega)

/-- The control flow of the loop depends on the key states and events only. -/
theorem renderLoop_ctrl (e1 e2 : Env) (hk : e1.keyState = e2.keyState)
    (he : e1.events = e2.events) :
    ∀ (fuel : Nat) (w1 w2 : World), w1.resizeCallback = true → w2.resizeCallback = true →
      w1.polls = w2.polls → w1.shouldClose = w2.shouldClose →
      (renderLoop e1 e1.createWindow e1.createProgram e1.genVertexArray fuel w1).1 =
        (renderLoop e2 e2.createWindow e2.createProgram e2.genVertexArray fuel w2).1 ∧
      (renderLoop e1 e1.createWindow e1.createProgram e1.genVertexArray fuel w1).2.polls =
        (renderLoop e2 e2.createWindow e2.createProgram e2.genVertexArray fuel w2).2.polls := by
  intro fuel
  induction fuel with
  | zero => intro w1 w2 _ _ hp _; simp [renderLoop, hp]
  | succ fuel ih =>
    intro w1 w2 h1 h2 hp hc
    rw [renderLoop_succ, renderLoop_succ]
    by_cases hz : w2.shouldClose = 0
    · rw [if_neg (by simpa [hc] using hz), if_neg (by simpa using hz)]
      have f1 := frame_eq e1 e1.createProgram e1.genVertexArray w1 h1
      have f2 := frame_eq e2 e2.createProgram e2.genVertexArray w2 h2
      refine ih _ _ (by rw [f1]; exact h1) (by rw [f2]; exact h2) (by rw [f1, f2]; simp [hp])
        (by rw [f1, f2]; simp [closes, hk, he, hp, hc])
    · rw [if_pos (by simpa [hc] using hz), if_pos (by simpa using hz)]
      simp [World.log, hp]

theorem setupPrefix_not_loop (env : Env) :
    ∀ c ∈ startupCalls env ++ contextCalls env ++ setupCalls env, isRenderLoopCall c = false := by
  have h : (startupCalls env ++ contextCalls env ++ setupCalls env).all
      (fun c => !isRenderLoopCall c) = true := by
    unfold startupCalls contextCalls setupCalls shaderCalls compileCalls linkCheckCalls
      geometryCalls
    split_ifs <;> rfl
  intro c hc
  simpa using List.all_eq_true.mp h c hc

theorem mem_callbackCalls {evs : List Event} {c : Call} (h : c ∈ callbackCalls evs) :
    ∃ width height, c = .glViewport 0 0 width height := by
  simp only [callbackCalls, List.mem_flatMap] at h
  obtain ⟨e, _, he⟩ := h
  cases e with
  | close => simp at he
  | resize width height => exact ⟨width, height, by simpa using he⟩

theorem specIteration_phase (env : Env) (i : Nat) :
    ∀ c ∈ specIteration env i, isLoopPhaseCall c = true := by
  intro c hc
  unfold specIteration at hc
  rw [List.mem_append] at hc
  rcases hc with hc | hc
  · have h : ([Call.glfwWindowShouldClose env.createWindow,
          Call.glfwGetKey env.createWindow GLFW_KEY_ESCAPE] ++
        (if env.keyState i GLFW_KEY_ESCAPE = GLFW_PRESS
          then [Call.glfwSetWindowShouldClose env.createWindow 1] else []) ++
        [Call.glClearColor f1 f0 f1 f1, Call.glClear GL_COLOR_BUFFER_BIT,
          Call.glUseProgram env.createProgram, Call.glBindVertexArray env.genVertexArray,
          Call.glDrawArrays GL_TRIANGLES 0 3, Call.glfwSwapBuffers env.createWindow,
          Call.glfwPollEvents]).all isLoopPhaseCall = true := by
      split_ifs <;> rfl
    exact List.all_eq_true.mp h c hc
  · obtain ⟨width, height, rfl⟩ := mem_callbackCalls hc
    rfl

theorem loopPart_phase (env : Env) (n : Nat) (e : Option Int) :
    ∀ c ∈ (List.range n).flatMap (specIteration env) ++ closingCalls env e,
      isLoopPhaseCall c = true := by
  intro c hc
  rw [List.mem_append, List.mem_flatMap] at hc
  rcases hc with ⟨i, _, hi⟩ | hc
  · exact specIteration_phase env i c hi
  · cases e with
    | none => simp [closingCalls] at hc
    | some r =>
      simp only [closingCalls, List.mem_cons, List.mem_singleton, List.not_mem_nil, or_false] at hc
      rcases hc with rfl | rfl <;> rfl

/-- A predicate that no loop-phase call satisfies selects nothing from the
calls of the loop phase, nor from any initial part of them. -/
theorem filter_loopPart (env : Env) (n k : Nat) (e : Option Int) (p : Call → Bool)
    (hp : ∀ c, isLoopPhaseCall c = true → p c = false) :
    (((List.range n).flatMap (specIteration env) ++ closingCalls env e).take k).filter p = [] := by
  rw [List.filter_eq_nil_iff]
  intro c hc
  rw [hp c (loopPart_phase env n e c (List.mem_of_mem_take hc))]
  simp

/-- The first closing iteration ends the loop, whatever comes later. -/
theorem main_terminates (env : Env) (fuel n : Nat) (hw : env.createWindow ≠ 0)
    (hg : env.gladLoad ≠ 0) (hn : closes env n) (hf : n + 2 ≤ fuel) :
    (main env fuel).exit = some 0 := by
  obtain ⟨-, -, -, -, -, s6, s7, s8, -⟩ := readyWorld_state env
  have hex : ∃ m, closes env m := ⟨n, hn⟩
  have hle : Nat.find hex ≤ n := Nat.find_min' hex hn
  have h := renderLoop_exit env (Nat.find hex) fuel (readyWorld env) s8 s7 (by omega)
    (fun j _ hj => Nat.find_min hex hj) (Nat.find_spec hex) (by omega)
  rw [main_eq, if_neg hw, if_neg hg, h.1]
  rfl

theorem main_fail_not_loop (env : Env) (fuel : Nat)
    (h : env.createWindow = 0 ∨ env.gladLoad = 0) :
    ∀ c ∈ (main env fuel).world.calls, isRenderLoopCall c = false := by
  intro c hc
  obtain ⟨-, -, -, hcalls⟩ := main_fail env fuel h
  rcases hcalls with hcalls | hcalls
  · rw [hcalls, List.mem_append, List.mem_singleton] at hc
    rcases hc with hc | rfl
    · exact setupPrefix_not_loop env c
        (List.mem_append_left _ (List.mem_append_left _ hc))
    · rfl
  · rw [hcalls] at hc
    exact setupPrefix_not_loop env c (List.mem_append_left _ hc)

theorem countP_flatMap_const {α β : Type} (p : β → Bool) (f : α → List β) (k : Nat)
    (h : ∀ a, (f a).countP p = k) (l : List α) :
    (l.flatMap f).countP p = l.length * k := by
  induction l with
  | nil => simp
  | cons a l ih => simp [List.flatMap_cons, List.countP_append, h, ih, Nat.succ_mul, Nat.add_comm]

theorem countP_eq_zero_of_forall {β : Type} (p : β → Bool) (l : List β)
    (h : ∀ c ∈ l, p c = false) : l.countP p = 0 := by
  rw [List.countP_eq_zero]
  intro c hc
  simp [h c hc]

theorem isDraw_isRenderLoopCall (c : Call) (h : isDraw c = true) : isRenderLoopCall c = true := by
  cases c <;> simp_all [isDraw, isRenderLoopCall]

theorem specIteration_draws (env : Env) (i : Nat) :
    (specIteration env i).countP isDraw = 1 := by
  have hcb : (callbackCalls (env.events i)).countP isDraw = 0 :=
    countP_eq_zero_of_forall _ _ (fun c hc => by
      obtain ⟨width, height, rfl⟩ := mem_callbackCalls hc
      rfl)
  unfold specIteration
  rw [List.countP_append, hcb]
  split_ifs <;> rfl

theorem specIteration_draw_args (env : Env) (i : Nat) :
    ∀ c ∈ specIteration env i, isDraw c = true → c = .glDrawArrays GL_TRIANGLES 0 3 := by
  intro c hc hd
  unfold specIteration at hc
  rw [List.mem_append] at hc
  rcases hc with hc | hc
  · by_cases hk : env.keyState i GLFW_KEY_ESCAPE = GLFW_PRESS <;>
    cases c <;> simp_all [isDraw]
  · obtain ⟨width, height, rfl⟩ := mem_callbackCalls hc
    simp [isDraw] at hd

theorem triangleDraw_eq (env : Env) :
    triangleDraw env =
      { mode := GL_TRIANGLES, first := 0, count := 3,
        program := env.createProgram, array := env.genVertexArray,
        attrib := { enabled := true, buffer := env.genBuffer, size := 3, type := GL_FLOAT,
                    normalized := GL_FALSE, stride := 3 * sizeofFloat, offset := 0 },
        store := [fNegHalf, fNegHalf, f0, fHalf, fNegHalf, f0, f0, fHalf, f0],
        vertices := [[fNegHalf, fNegHalf, f0], [fHalf, fNegHalf, f0], [f0, fHalf, f0]] } := by
  simp [triangleDraw, drawOf, triangleAttrib, fetchVertex, vertices, sizeofFloat]

/-- Splitting the calls of a successful start at a call of the loop: the whole
set-up lies before it. -/
theorem take_at_loop_call (S R : List Call) (i : Nat) (c : Call)
    (hS : ∀ x ∈ S, isRenderLoopCall x = false) (hc : isRenderLoopCall c = true)
    (hi : (S ++ R)[i]? = some c) :
    (S ++ R).take i = S ++ R.take (i - S.length) := by
  have hlen : S.length ≤ i := by
    by_contra hlt
    rw [not_le] at hlt
    rw [List.getElem?_append_left hlt] at hi
    have hmem : c ∈ S := List.getElem?_mem hi
    rw [hS c hmem] at hc
    exact absurd hc (by simp)
  rw [List.take_append_eq_append_take, List.take_of_length_le hlen]

theorem setupPrefix_filter_createProgram (env : Env) :
    (startupCalls env ++ contextCalls env ++ setupCalls env).filter isCreateProgram =
      [.glCreateProgram] := by
  unfold startupCalls contextCalls setupCalls shaderCalls compileCalls linkCheckCalls
    geometryCalls
  split_ifs <;> rfl

theorem setupPrefix_filter_linkProgram (env : Env) :
    (startupCalls env ++ contextCalls env ++ setupCalls env).filter isLinkProgram =
      [.glLinkProgram env.createProgram] := by
  unfold startupCalls contextCalls setupCalls shaderCalls compileCalls linkCheckCalls
    geometryCalls
  split_ifs <;> rfl

theorem isCreateProgram_not_phase (c : Call) :
    isLoopPhaseCall c = true → isCreateProgram c = false := by
  cases c <;> simp [isLoopPhaseCall, isRenderLoopCall, isCreateProgram]

theorem isLinkProgram_not_phase (c : Call) :
    isLoopPhaseCall c = true → isLinkProgram c = false := by
  cases c <;> simp [isLoopPhaseCall, isRenderLoopCall, isLinkProgram]

theorem isBufferData_not_phase (c : Call) :
    isLoopPhaseCall c = true → isBufferData c = false := by
  cases c <;> simp [isLoopPhaseCall, isRenderLoopCall, isBufferData]

theorem isDeleteShader_not_phase (c : Call) :
    isLoopPhaseCall c = true → isDeleteShader c = false := by
  cases c <;> simp [isLoopPhaseCall, isRenderLoopCall, isDeleteShader]

theorem isInfoLogQuery_not_phase (c : Call) :
    isLoopPhaseCall c = true → isInfoLogQuery c = false := by
  cases c <;> simp [isLoopPhaseCall, isRenderLoopCall, isInfoLogQuery]

theorem shaderArg_of_phase (c : Call) :
    isLoopPhaseCall c = true → c.shaderArg = none := by
  cases c <;> simp [isLoopPhaseCall, isRenderLoopCall, Call.shaderArg]

/-- All calls of the loop phase, as the `k = length` case of `filter_loopPart`. -/
theorem filter_loopPart_all (env : Env) (n : Nat) (e : Option Int) (p : Call → Bool)
    (hp : ∀ c, isLoopPhaseCall c = true → p c = false) :
    ((List.range n).flatMap (specIteration env) ++ closingCalls env e).filter p = [] := by
  have h := filter_loopPart env n
    ((List.range n).flatMap (specIteration env) ++ closingCalls env e).length e p hp
  rwa [List.take_length] at h

theorem setupPrefix_filter_bufferData (env : Env) :
    (startupCalls env ++ contextCalls env ++ setupCalls env).filter isBufferData =
      [.glBufferData GL_ARRAY_BUFFER 36 vertices GL_STATIC_DRAW,
       .glBufferData GL_ARRAY_BUFFER 36 vertices GL_STATIC_DRAW,
       .glBufferData GL_ARRAY_BUFFER 36 vertices GL_STATIC_DRAW] := by
  unfold startupCalls contextCalls setupCalls shaderCalls compileCalls linkCheckCalls
    geometryCalls
  split_ifs <;> rfl

theorem setupPrefix_filter_deleteShader (env : Env) :
    (startupCalls env ++ contextCalls env ++ setupCalls env).filter isDeleteShader =
      [.glDeleteShader (env.createShader GL_VERTEX_SHADER),
       .glDeleteShader (env.createShader GL_FRAGMENT_SHADER)] := by
  unfold startupCalls contextCalls setupCalls shaderCalls compileCalls linkCheckCalls
    geometryCalls
  split_ifs <;> rfl

theorem geometryCalls_no_shader (env : Env) :
    ∀ c ∈ geometryCalls env, c.shaderArg = none := by
  have h : (geometryCalls env).all (fun c => c.shaderArg.isNone) = true := rfl
  intro c hc
  simpa using List.all_eq_true.mp h c hc

theorem linkCheckCalls_no_shader (env : Env) :
    ∀ c ∈ linkCheckCalls env, c.shaderArg = none := by
  have h : (linkCheckCalls env).all (fun c => c.shaderArg.isNone) = true := by
    unfold linkCheckCalls
    split_ifs <;> rfl
  intro c hc
  simpa using List.all_eq_true.mp h c hc

theorem setupPrefix_filter_infoLog (env : Env) :
    (startupCalls env ++ contextCalls env ++ setupCalls env).filter isInfoLogQuery =
      infoLogCalls env := by
  unfold startupCalls contextCalls setupCalls shaderCalls compileCalls linkCheckCalls
    geometryCalls infoLogCalls
  split_ifs <;> rfl

/-- The info-log retrievals of an execution: none when the start-up fails, one
per failed step otherwise. -/
theorem main_infoLogCalls (env : Env) (fuel : Nat) :
    (main env fuel).world.calls.filter isInfoLogQuery =
      if env.createWindow = 0 ∨ env.gladLoad = 0 then [] else infoLogCalls env := by
  by_cases hfail : env.createWindow = 0 ∨ env.gladLoad = 0
  · rw [if_pos hfail, List.filter_eq_nil_iff]
    intro c hc hq
    have h1 := main_fail_not_loop env fuel hfail c hc
    obtain ⟨-, -, -, hcalls⟩ := main_fail env fuel hfail
    have hall : (startupCalls env ++ [Call.glfwTerminate] ++ contextCalls env).all
        (fun c => !isInfoLogQuery c) = true := by
      unfold startupCalls contextCalls
      split_ifs <;> rfl
    have hmem : c ∈ startupCalls env ++ [Call.glfwTerminate] ++ contextCalls env := by
      rcases hcalls with hcalls | hcalls
      · rw [hcalls] at hc
        exact List.mem_append_left _ hc
      · rw [hcalls, List.mem_append] at hc
        rcases hc with hc | hc
        · exact List.mem_append_left _ (List.mem_append_left _ hc)
        · exact List.mem_append_right _ hc
    have := List.all_eq_true.mp hall c hmem
    simp [hq] at this
  · rw [if_neg hfail]
    rw [not_or] at hfail
    obtain ⟨n, -, h1, -⟩ := main_ok env fuel hfail.1 hfail.2
    rw [h1, List.append_assoc, List.filter_append, setupPrefix_filter_infoLog,
      filter_loopPart_all env n _ isInfoLogQuery isInfoLogQuery_not_phase, List.append_nil]

/-! ## The claims -/

/-- Claim C1: `main` returns -1 exactly when `glfwCreateWindow` returns NULL or
`gladLoadGLLoader` reports failure, and then no call of the render loop is made;
otherwise the only exit status is 0, and it is reached (two loop checks after an
iteration that raises the close flag at the latest). -/
theorem C1_exit_status (env : Env) (fuel : Nat) :
    ((main env fuel).exit = some (-1) ↔ (env.createWindow = 0 ∨ env.gladLoad = 0)) ∧
    ((env.createWindow = 0 ∨ env.gladLoad = 0) →
      ∀ c ∈ (main env fuel).world.calls, isRenderLoopCall c = false) ∧
    (¬ (env.createWindow = 0 ∨ env.gladLoad = 0) →
      ∀ r, (main env fuel).exit = some r → r = 0) ∧
    (¬ (env.createWindow = 0 ∨ env.gladLoad = 0) →
      ∀ n, closes env n → n + 2 ≤ fuel → (main env fuel).exit = some 0) := by
  refine ⟨⟨?_, fun h => (main_fail env fuel h).1⟩, ?_, ?_, ?_⟩
  · intro h
    by_contra hne
    rw [not_or] at hne
    obtain ⟨n, -, -, -, -, -, -, -, -, hex, -⟩ := main_ok env fuel hne.1 hne.2
    rcases hex with hex | ⟨hex, -⟩ <;> rw [hex] at h <;> simp at h
  · exact main_fail_not_loop env fuel
  · intro hne r hr
    rw [not_or] at hne
    obtain ⟨n, -, -, -, -, -, -, -, -, hex, -⟩ := main_ok env fuel hne.1 hne.2
    rcases hex with hex | ⟨hex, -⟩ <;> rw [hex] at hr <;> simp at hr
    exact hr.symm
  · intro hne n hn hf
    rw [not_or] at hne
    exact main_terminates env fuel n hne.1 hne.2 hn hf

/-- Witness for C1: without a window `main` returns -1 and never enters the
loop; with everything in place and escape pressed in the second iteration it
returns 0. -/
theorem C1_exit_status_witness :
    (main envNoWindow 5).exit = some (-1) ∧
    (∀ c ∈ (main envNoWindow 5).world.calls, isRenderLoopCall c = false) ∧
    (main envGood 5).exit = some 0 :=
  ⟨(C1_exit_status envNoWindow 5).1.mpr (Or.inl rfl),
   (C1_exit_status envNoWindow 5).2.1 (Or.inl rfl),
   (C1_exit_status envGood 5).2.2.2 (by decide) 1 (Or.inl rfl) (by decide)⟩

theorem setupCalls_filter_noInfoLog (env : Env) :
    (setupCalls env).filter (fun c => !isInfoLogQuery c) =
      [.glViewport 0 0 800 600,
       .glCreateShader GL_VERTEX_SHADER,
       .glShaderSource (env.createShader GL_VERTEX_SHADER) 1 vertexShaderSource,
       .glCompileShader (env.createShader GL_VERTEX_SHADER),
       .glGetShaderiv (env.createShader GL_VERTEX_SHADER) GL_COMPILE_STATUS,
       .glCreateShader GL_FRAGMENT_SHADER,
       .glShaderSource (env.createShader GL_FRAGMENT_SHADER) 1 fragmentShaderSource,
       .glCompileShader (env.createShader GL_FRAGMENT_SHADER),
       .glGetShaderiv (env.createShader GL_FRAGMENT_SHADER) GL_COMPILE_STATUS,
       .glCreateProgram,
       .glAttachShader env.createProgram (env.createShader GL_VERTEX_SHADER),
       .glAttachShader env.createProgram (env.createShader GL_FRAGMENT_SHADER),
       .glLinkProgram env.createProgram,
       .glGetProgramiv env.createProgram GL_LINK_STATUS,
       .glDeleteShader (env.createShader GL_VERTEX_SHADER),
       .glDeleteShader (env.createShader GL_FRAGMENT_SHADER)] ++
      geometryCalls env := by
  unfold setupCalls shaderCalls compileCalls linkCheckCalls geometryCalls
  split_ifs <;> rfl

theorem main_exit_polls_congr (e1 e2 : Env) (fuel : Nat) (h : sameButShaderStatus e1 e2) :
    (main e1 fuel).exit = (main e2 fuel).exit ∧
    (main e1 fuel).world.polls = (main e2 fuel).world.polls := by
  obtain ⟨-, hw, hg, -, -, -, -, hk, he⟩ := h
  obtain ⟨-, -, -, -, -, a6, a7, a8, -⟩ := readyWorld_state e1
  obtain ⟨-, -, -, -, -, b6, b7, b8, -⟩ := readyWorld_state e2
  have hc := renderLoop_ctrl e1 e2 hk he fuel (readyWorld e1) (readyWorld e2) a8 b8
    (by rw [a6, b6]) (by rw [a7, b7])
  by_cases h1 : e1.createWindow = 0
  · have h1' : e2.createWindow = 0 := by rw [← hw]; exact h1
    rw [main_eq e1, main_eq e2, if_pos h1, if_pos h1']
    simp [glfwTerminate, cout, World.log, startWorld_eq, World.init]
  · have h1' : ¬ e2.createWindow = 0 := by rw [← hw]; exact h1
    by_cases h2 : e1.gladLoad = 0
    · have h2' : e2.gladLoad = 0 := by rw [← hg]; exact h2
      rw [main_eq e1, main_eq e2, if_neg h1, if_neg h1', if_pos h2, if_pos h2']
      simp [cout, contextWorld_eq, World.init]
    · have h2' : ¬ e2.gladLoad = 0 := by rw [← hg]; exact h2
      rw [main_eq e1, main_eq e2, if_neg h1, if_neg h1', if_neg h2, if_neg h2']
      cases hr : (renderLoop e2 e2.createWindow e2.createProgram e2.genVertexArray fuel
        (readyWorld e2)).1
      · have hr1 := hc.1.trans hr
        simp only [hr1]
        exact ⟨rfl, hc.2⟩
      · have hr1 := hc.1.trans hr
        simp only [hr1]
        exact ⟨rfl, by simpa [glfwTerminate, World.log] using hc.2⟩

/-- Claim C2, as stated, fails: `envGood` and `envVertexFails` differ in the
compile status (and log) of the vertex shader only, yet the second execution
makes one OpenGL call more, `glGetShaderInfoLog`, which the first never makes. -/
theorem C2_counterexample :
    sameButShaderStatus envGood envVertexFails ∧
    (main envGood 5).world.calls ≠ (main envVertexFails 5).world.calls ∧
    Call.glGetShaderInfoLog 1 512 ∈ (main envVertexFails 5).world.calls ∧
    Call.glGetShaderInfoLog 1 512 ∉ (main envGood 5).world.calls := by
  refine ⟨⟨rfl, rfl, rfl, rfl, rfl, rfl, rfl, rfl, rfl⟩, by decide, by decide, by decide⟩

/-- Claim C2, amended: two executions that get the same answers except for the
compile statuses, the link status and the info logs end with the same exit
status after the same number of iterations, submit the same draws, and make the
same sequence of GLFW/OpenGL calls once the retrievals of info logs
(`glGetShaderInfoLog`, `glGetProgramInfoLog`) are left out; those retrievals are
one per failed step (none when the start-up fails). -/
theorem C2_status_not_fatal (e1 e2 : Env) (fuel : Nat) (h : sameButShaderStatus e1 e2) :
    (main e1 fuel).exit = (main e2 fuel).exit ∧
    (main e1 fuel).world.polls = (main e2 fuel).world.polls ∧
    (main e1 fuel).world.draws = (main e2 fuel).world.draws ∧
    (main e1 fuel).world.calls.filter (fun c => !isInfoLogQuery c) =
      (main e2 fuel).world.calls.filter (fun c => !isInfoLogQuery c) ∧
    (main e1 fuel).world.calls.filter isInfoLogQuery =
      (if e1.createWindow = 0 ∨ e1.gladLoad = 0 then [] else infoLogCalls e1) ∧
    (main e2 fuel).world.calls.filter isInfoLogQuery =
      (if e2.createWindow = 0 ∨ e2.gladLoad = 0 then [] else infoLogCalls e2) := by
  obtain ⟨hexit, hpolls⟩ := main_exit_polls_congr e1 e2 fuel h
  obtain ⟨ha, hw, hg, hs, hp, hb, hv, hk, he⟩ := h
  have hstart : startupCalls e1 = startupCalls e2 := by simp [startupCalls, ha]
  have hctx : contextCalls e1 = contextCalls e2 := by simp [contextCalls, hw]
  have hgeo : geometryCalls e1 = geometryCalls e2 := by simp [geometryCalls, hb, hv]
  have hiter : specIteration e1 = specIteration e2 := by
    funext i
    simp [specIteration, hw, hp, hv, hk, he]
  have hclosing : closingCalls e1 = closingCalls e2 := by
    funext e
    cases e <;> simp [closingCalls, hw]
  have hdraw : triangleDraw e1 = triangleDraw e2 := by
    simp [triangleDraw, triangleAttrib, hp, hv, hb]
  refine ⟨hexit, hpolls, ?_, ?_, main_infoLogCalls e1 fuel, main_infoLogCalls e2 fuel⟩
  · by_cases hfail : e1.createWindow = 0 ∨ e1.gladLoad = 0
    · rw [(main_fail e1 fuel hfail).2.1, (main_fail e2 fuel (by rwa [← hw, ← hg])).2.1]
    · rw [not_or] at hfail
      obtain ⟨n1, -, -, x2, x3, -⟩ := main_ok e1 fuel hfail.1 hfail.2
      obtain ⟨n2, -, -, y2, y3, -⟩ := main_ok e2 fuel (by rw [← hw]; exact hfail.1)
        (by rw [← hg]; exact hfail.2)
      rw [x2, y2, hdraw, ← x3, ← y3, hpolls]
  · by_cases hfail : e1.createWindow = 0 ∨ e1.gladLoad = 0
    · have hfail2 : e2.createWindow = 0 ∨ e2.gladLoad = 0 := by rwa [← hw, ← hg]
      by_cases hw0 : e1.createWindow = 0
      · have hw0' : e2.createWindow = 0 := by rw [← hw]; exact hw0
        rw [main_eq e1, main_eq e2, if_pos hw0, if_pos hw0']
        simp [glfwTerminate, cout, World.log, startWorld_eq, hstart]
      · have hw0' : ¬ e2.createWindow = 0 := by rw [← hw]; exact hw0
        have hg0 : e1.gladLoad = 0 := by
          rcases hfail with h | h
          · exact absurd h hw0
          · exact h
        have hg0' : e2.gladLoad = 0 := by rw [← hg]; exact hg0
        rw [main_eq e1, main_eq e2, if_neg hw0, if_neg hw0', if_pos hg0, if_pos hg0']
        simp [cout, contextWorld_eq, hstart, hctx]
    · rw [not_or] at hfail
      obtain ⟨n1, -, x1, -, x3, -⟩ := main_ok e1 fuel hfail.1 hfail.2
      obtain ⟨n2, -, y1, -, y3, -⟩ := main_ok e2 fuel (by rw [← hw]; exact hfail.1)
        (by rw [← hg]; exact hfail.2)
      have hn : n1 = n2 := by rw [← x3, ← y3, hpolls]
      rw [x1, y1]
      simp only [List.filter_append]
      rw [setupCalls_filter_noInfoLog e1, setupCalls_filter_noInfoLog e2,
        hstart, hctx, hgeo, hiter, hclosing, hexit, hn, hs, hp]

/-- Witness for the amended C2: `envGood` and `envVertexFails`. -/
theorem C2_status_not_fatal_witness :
    (main envGood 5).exit = (main envVertexFails 5).exit ∧
    (main envGood 5).world.calls.filter (fun c => !isInfoLogQuery c) =
      (main envVertexFails 5).world.calls.filter (fun c => !isInfoLogQuery c) :=
  ⟨(C2_status_not_fatal envGood envVertexFails 5
      ⟨rfl, rfl, rfl, rfl, rfl, rfl, rfl, rfl, rfl⟩).1,
   (C2_status_not_fatal envGood envVertexFails 5
      ⟨rfl, rfl, rfl, rfl, rfl, rfl, rfl, rfl, rfl⟩).2.2.2.1⟩

theorem render_diagnostic (message : String) (infoLog : List UInt8) :
    render [.str message, .chars infoLog, .endl] = utf8 message ++ infoLog ++ [10] := by
  simp [render, Out.text]

theorem cString_of_no_nul (log : List UInt8) (h : ∀ b ∈ log, b ≠ 0) : cString log = log := by
  simpa [cString] using h

set_option maxRecDepth 100000 in
/-- Claim C3, as stated, fails: the vertex shader of `envLongLog` does not
compile and its info log has 600 bytes, none of them NUL; what is printed is the
message, the first 511 bytes of that log and a line end, which is shorter than
the message followed by the info log. -/
theorem C3_counterexample :
    envLongLog.shaderiv (envLongLog.createShader GL_VERTEX_SHADER) GL_COMPILE_STATUS = 0 ∧
    (envLongLog.shaderLog (envLongLog.createShader GL_VERTEX_SHADER)).length = 600 ∧
    (∀ b ∈ envLongLog.shaderLog (envLongLog.createShader GL_VERTEX_SHADER), b ≠ 0) ∧
    (main envLongLog 1).world.out =
      [.str "vertex shader failed to compile\n", .chars (List.replicate 511 120), .endl] ∧
    (main envLongLog 1).world.out ≠
      [.str "vertex shader failed to compile\n",
       .chars (envLongLog.shaderLog (envLongLog.createShader GL_VERTEX_SHADER)), .endl] ∧
    (render (main envLongLog 1).world.out).length <
      (utf8 "vertex shader failed to compile\n" ++
        envLongLog.shaderLog (envLongLog.createShader GL_VERTEX_SHADER)).length := by
  refine ⟨by decide, by decide, by decide, by decide, by decide, by decide⟩

/-- Claim C3, amended: once the window and the loader are there, standard output
is the vertex diagnostic, the fragment diagnostic and the link diagnostic in
this order, where the diagnostic of a step is, when the status of the step is 0,
its message, then the info log as the 512-byte buffer `infoLog` holds it (the
first 511 bytes of the log at most), then a line end, and nothing when the
status is not 0; a printed diagnostic is never empty; with three non-zero
statuses nothing is written. -/
theorem C3_diagnostics_bounded (env : Env) (fuel : Nat) (hw : env.createWindow ≠ 0)
    (hg : env.gladLoad ≠ 0) :
    (main env fuel).world.out =
      diagnostic (env.shaderiv (env.createShader GL_VERTEX_SHADER) GL_COMPILE_STATUS)
        "vertex shader failed to compile\n"
        (infoLogBuffer (env.shaderLog (env.createShader GL_VERTEX_SHADER)) 512) ++
      diagnostic (env.shaderiv (env.createShader GL_FRAGMENT_SHADER) GL_COMPILE_STATUS)
        "fragment shader failed to compile\n"
        (infoLogBuffer (env.shaderLog (env.createShader GL_FRAGMENT_SHADER)) 512) ++
      diagnostic (env.programiv env.createProgram GL_LINK_STATUS)
        "shader program failed to link\n"
        (infoLogBuffer (env.programLog env.createProgram) 512) ∧
    (∀ (status : Int) (message : String) (infoLog : List UInt8),
      (status = 0 → diagnostic status message infoLog = [.str message, .chars infoLog, .endl]) ∧
      (status ≠ 0 → diagnostic status message infoLog = []) ∧
      (status = 0 → render (diagnostic status message infoLog) =
        utf8 message ++ infoLog ++ [10]) ∧
      (status = 0 → render (diagnostic status message infoLog) ≠ [])) ∧
    (∀ log : List UInt8,
      infoLogBuffer log 512 = (cString log).take 511 ∧
      (infoLogBuffer log 512).length ≤ 511 ∧
      ((∀ b ∈ log, b ≠ 0) → infoLogBuffer log 512 = log.take 511)) ∧
    ((utf8 "vertex shader failed to compile\n").length = 32 ∧
      (utf8 "fragment shader failed to compile\n").length = 34 ∧
      (utf8 "shader program failed to link\n").length = 30) ∧
    (env.shaderiv (env.createShader GL_VERTEX_SHADER) GL_COMPILE_STATUS ≠ 0 →
      env.shaderiv (env.createShader GL_FRAGMENT_SHADER) GL_COMPILE_STATUS ≠ 0 →
      env.programiv env.createProgram GL_LINK_STATUS ≠ 0 →
      (main env fuel).world.out = [] ∧ render (main env fuel).world.out = []) := by
  obtain ⟨n, -, -, -, -, h4, -⟩ := main_ok env fuel hw hg
  refine ⟨h4, ?_, ?_, ⟨by decide, by decide, by decide⟩, ?_⟩
  · intro status message infoLog
    refine ⟨fun h => by simp [diagnostic, h], fun h => by simp [diagnostic, h], fun h => ?_,
      fun h => ?_⟩
    · simp only [diagnostic, h, if_true, render_diagnostic]
    · simp only [diagnostic, h, if_true, render_diagnostic]
      simp
  · intro log
    refine ⟨rfl, ?_, fun h => ?_⟩
    · simp only [infoLogBuffer, List.length_take]
      omega
    · simp only [infoLogBuffer, cString_of_no_nul log h]
  · intro hv hf hl
    rw [h4]
    simp [diagnostics, diagnostic, hv, hf, hl, render]

/-- Witness for the amended C3: a run whose vertex shader does not compile
prints the vertex diagnostic and nothing else; a run in which everything
succeeds prints nothing. -/
theorem C3_diagnostics_bounded_witness :
    (main envVertexFails 5).world.out =
      [.str "vertex shader failed to compile\n",
       .chars (utf8 "0:1(1): error: unexpected token"), .endl] ∧
    (main envGood 5).world.out = [] :=
  ⟨(C3_diagnostics_bounded envVertexFails 5 (by decide) (by decide)).1.trans (by decide),
   ((C3_diagnostics_bounded envGood 5 (by decide) (by decide)).2.2.2.2 (by decide) (by decide)
      (by decide)).1⟩

/-- Claim C4, as stated, fails: with a program that does not link
(`GL_LINK_STATUS` 0, `envLinkFails`) the first iteration still issues its draw
call, with that program in use. -/
theorem C4_counterexample :
    ¬ (∀ d ∈ (main envLinkFails 1).world.draws,
        envLinkFails.programiv d.program GL_LINK_STATUS ≠ 0) ∧
    Call.glDrawArrays GL_TRIANGLES 0 3 ∈ (main envLinkFails 1).world.calls ∧
    (main envLinkFails 1).world.calls.filter isLinkProgram = [.glLinkProgram 3] ∧
    (main envLinkFails 1).world.draws.map (fun d => d.program) = [3] ∧
    envLinkFails.programiv 3 GL_LINK_STATUS = 0 := by
  refine ⟨?_, by decide, by decide, by decide, by decide⟩
  intro h
  exact h (triangleDraw envLinkFails) (by decide) (by decide)

/-- Claim C4, amended: every `glDrawArrays` call comes after the creation of
the one program object and after the one `glLinkProgram` call, which is on the
program in use at the draw; no other program is created or linked in the whole
execution.  (The status of that link is not examined before drawing.) -/
theorem C4_draw_after_link (env : Env) (fuel i : Nat) (c : Call)
    (hi : (main env fuel).world.calls[i]? = some c) (hd : isDraw c = true) :
    ((main env fuel).world.calls.take i).filter isCreateProgram = [.glCreateProgram] ∧
    ((main env fuel).world.calls.take i).filter isLinkProgram =
      [.glLinkProgram env.createProgram] ∧
    (main env fuel).world.calls.filter isCreateProgram = [.glCreateProgram] ∧
    (main env fuel).world.calls.filter isLinkProgram = [.glLinkProgram env.createProgram] ∧
    (∀ d ∈ (main env fuel).world.draws, d.program = env.createProgram) := by
  have hloop := isDraw_isRenderLoopCall c hd
  by_cases hfail : env.createWindow = 0 ∨ env.gladLoad = 0
  · have h1 := main_fail_not_loop env fuel hfail c (List.getElem?_mem hi)
    rw [hloop] at h1
    exact absurd h1 (by simp)
  · rw [not_or] at hfail
    obtain ⟨n, -, h1, h2, -⟩ := main_ok env fuel hfail.1 hfail.2
    rw [List.append_assoc] at h1
    rw [h1] at hi
    have htake := take_at_loop_call _ _ i c (setupPrefix_not_loop env) hloop hi
    refine ⟨?_, ?_, ?_, ?_, ?_⟩
    · rw [h1, htake, List.filter_append, setupPrefix_filter_createProgram,
        filter_loopPart env n _ _ isCreateProgram isCreateProgram_not_phase]
      rfl
    · rw [h1, htake, List.filter_append, setupPrefix_filter_linkProgram,
        filter_loopPart env n _ _ isLinkProgram isLinkProgram_not_phase]
      rfl
    · rw [h1, List.filter_append, setupPrefix_filter_createProgram,
        filter_loopPart_all env n _ isCreateProgram isCreateProgram_not_phase]
      rfl
    · rw [h1, List.filter_append, setupPrefix_filter_linkProgram,
        filter_loopPart_all env n _ isLinkProgram isLinkProgram_not_phase]
      rfl
    · intro d hdm
      rw [h2] at hdm
      obtain rfl := List.eq_of_mem_replicate hdm
      rfl

/-- Witness for the amended C4: the draw call of the first iteration of an
execution whose program failed to link. -/
theorem C4_draw_after_link_witness :
    ((main envLinkFails 1).world.calls.take 44).filter isLinkProgram = [.glLinkProgram 3] ∧
    (main envLinkFails 1).world.calls.filter isCreateProgram = [.glCreateProgram] :=
  ⟨(C4_draw_after_link envLinkFails 1 44 (.glDrawArrays GL_TRIANGLES 0 3)
      (by decide) (by decide)).2.1,
   (C4_draw_after_link envLinkFails 1 44 (.glDrawArrays GL_TRIANGLES 0 3)
      (by decide) (by decide)).2.2.1⟩

/-- Claim C5: once the window and the loader are there, the calls of `main` are
those of the set-up, then one block per iteration, each block being exactly the
steps of the specification in their order (`specIteration`: loop condition, key
query and close request if escape is pressed, clear colour (1,0,1,1) and clear,
bind program and vertex array, one draw, swap, poll), then the closing calls;
the set-up contains no call of the loop, and there are as many blocks as rounds
of event processing. -/
theorem C5_iteration_steps (env : Env) (fuel : Nat) (hw : env.createWindow ≠ 0)
    (hg : env.gladLoad ≠ 0) :
    (main env fuel).world.calls =
      startupCalls env ++ contextCalls env ++ setupCalls env ++
        (List.range (main env fuel).world.polls).flatMap (specIteration env) ++
        closingCalls env (main env fuel).exit ∧
    (∀ c ∈ startupCalls env ++ contextCalls env ++ setupCalls env,
      isRenderLoopCall c = false) ∧
    (main env fuel).world.polls ≤ fuel ∧
    ((main env fuel).exit = none → (main env fuel).world.polls = fuel) ∧
    (∀ i, specIteration env i =
      [.glfwWindowShouldClose env.createWindow,
       .glfwGetKey env.createWindow GLFW_KEY_ESCAPE] ++
      (if env.keyState i GLFW_KEY_ESCAPE = GLFW_PRESS
        then [.glfwSetWindowShouldClose env.createWindow 1] else []) ++
      [.glClearColor f1 f0 f1 f1,
       .glClear GL_COLOR_BUFFER_BIT,
       .glUseProgram env.createProgram,
       .glBindVertexArray env.genVertexArray,
       .glDrawArrays GL_TRIANGLES 0 3,
       .glfwSwapBuffers env.createWindow,
       .glfwPollEvents] ++
      callbackCalls (env.events i)) ∧
    (f1.toRat = 1 ∧ f0.toRat = 0) := by
  obtain ⟨n, hn, h1, -, h3, -, -, -, -, hex, -⟩ := main_ok env fuel hw hg
  refine ⟨by rw [h3]; exact h1, setupPrefix_not_loop env, by omega, ?_, fun i => rfl,
    by simp [GLfloat.toRat, f1, f0]⟩
  intro hnone
  rcases hex with hex | ⟨-, hex⟩
  · rw [hex] at hnone; simp at hnone
  · omega

/-- Witness for C5: an execution of two iterations, the first with a resize,
the second with escape pressed. -/
theorem C5_iteration_steps_witness :
    (main envGood 5).world.calls =
      startupCalls envGood ++ contextCalls envGood ++ setupCalls envGood ++
        (List.range (main envGood 5).world.polls).flatMap (specIteration envGood) ++
        closingCalls envGood (main envGood 5).exit ∧
    (main envGood 5).world.polls = 2 :=
  ⟨(C5_iteration_steps envGood 5 (by decide) (by decide)).1, by rfl⟩

/-- Claim C6: every draw call is `glDrawArrays(GL_TRIANGLES, 0, 3)`; at each of
them attribute 0 of the bound vertex array is enabled and reads the buffer that
holds the nine uploaded values, three float components per vertex, stride of
three floats, offset 0, so that the vertices fetched are (-0.5,-0.5,0),
(0.5,-0.5,0), (0,0.5,0); the count equals the number of vertices uploaded. -/
theorem C6_draw_call (env : Env) (fuel : Nat) :
    (∀ c ∈ (main env fuel).world.calls, isDraw c = true → c = .glDrawArrays GL_TRIANGLES 0 3) ∧
    (main env fuel).world.draws.length = (main env fuel).world.calls.countP isDraw ∧
    (∀ d ∈ (main env fuel).world.draws,
      d = { mode := GL_TRIANGLES, first := 0, count := 3,
            program := env.createProgram, array := env.genVertexArray,
            attrib := { enabled := true, buffer := env.genBuffer, size := 3, type := GL_FLOAT,
                        normalized := GL_FALSE, stride := 3 * sizeofFloat, offset := 0 },
            store := [fNegHalf, fNegHalf, f0, fHalf, fNegHalf, f0, f0, fHalf, f0],
            vertices := [[fNegHalf, fNegHalf, f0], [fHalf, fNegHalf, f0], [f0, fHalf, f0]] } ∧
      d.count * d.attrib.size = d.store.length ∧
      d.store = (main env fuel).world.buffers d.attrib.buffer ∧
      d.attrib = (main env fuel).world.attribs d.array 0) ∧
    (fNegHalf.toRat = -1 / 2 ∧ fHalf.toRat = 1 / 2 ∧ f0.toRat = 0) := by
  refine ⟨?_, ?_, ?_, by norm_num [GLfloat.toRat, fNegHalf, fHalf, f0]⟩
  · by_cases hfail : env.createWindow = 0 ∨ env.gladLoad = 0
    · intro c hc hd
      have h1 := main_fail_not_loop env fuel hfail c hc
      rw [isDraw_isRenderLoopCall c hd] at h1
      exact absurd h1 (by simp)
    · rw [not_or] at hfail
      obtain ⟨n, -, h1, -⟩ := main_ok env fuel hfail.1 hfail.2
      intro c hc hd
      rw [h1, List.mem_append, List.mem_append] at hc
      rcases hc with (hc | hc) | hc
      · have h2 := setupPrefix_not_loop env c hc
        rw [isDraw_isRenderLoopCall c hd] at h2
        exact absurd h2 (by simp)
      · rw [List.mem_flatMap] at hc
        obtain ⟨i, _, hi⟩ := hc
        exact specIteration_draw_args env i c hi hd
      · cases hx : (main env fuel).exit with
        | none => rw [hx] at hc; simp [closingCalls] at hc
        | some r =>
          rw [hx] at hc
          simp only [closingCalls, List.mem_cons, List.mem_singleton, List.not_mem_nil,
            or_false] at hc
          rcases hc with rfl | rfl <;> simp [isDraw] at hd
  · by_cases hfail : env.createWindow = 0 ∨ env.gladLoad = 0
    · rw [(main_fail env fuel hfail).2.1, countP_eq_zero_of_forall]
      · rfl
      · intro c hc
        by_contra hd
        have h1 := main_fail_not_loop env fuel hfail c hc
        rw [isDraw_isRenderLoopCall c (by simpa using hd)] at h1
        exact absurd h1 (by simp)
    · rw [not_or] at hfail
      obtain ⟨n, -, h1, h2, -⟩ := main_ok env fuel hfail.1 hfail.2
      rw [h1, h2, List.countP_append, List.countP_append,
        countP_flatMap_const isDraw (specIteration env) 1 (specIteration_draws env),
        countP_eq_zero_of_forall isDraw (startupCalls env ++ contextCalls env ++ setupCalls env)]
      · have : (closingCalls env (main env fuel).exit).countP isDraw = 0 := by
          cases (main env fuel).exit <;> rfl
        simp [this]
      · intro c hc
        by_contra hd
        have h3 := setupPrefix_not_loop env c hc
        rw [isDraw_isRenderLoopCall c (by simpa using hd)] at h3
        exact absurd h3 (by simp)
  · by_cases hfail : env.createWindow = 0 ∨ env.gladLoad = 0
    · rw [(main_fail env fuel hfail).2.1]
      intro d hd
      simp at hd
    · rw [not_or] at hfail
      obtain ⟨n, -, -, h2, -, -, h5, h6, -⟩ := main_ok env fuel hfail.1 hfail.2
      intro d hd
      rw [h2] at hd
      obtain rfl := List.eq_of_mem_replicate hd
      refine ⟨triangleDraw_eq env, rfl, ?_, ?_⟩
      · exact h5.symm
      · exact h6.symm

/-- Claim C7: if no earlier iteration raised the close flag and the escape key
is reported pressed in iteration `n`, then `processInput` requests the close in
that iteration, the loop runs exactly the iterations `0..n` (no execution, of
whatever length, starts a further one), and `main` goes on to `glfwTerminate`
and returns 0.  `processInput` sets the close flag to 1 if escape is pressed
and leaves it unchanged otherwise. -/
theorem C7_escape_closes (env : Env) (n fuel : Nat) (hw : env.createWindow ≠ 0)
    (hg : env.gladLoad ≠ 0) (hreach : ∀ j < n, ¬ closes env j)
    (hkey : env.keyState n GLFW_KEY_ESCAPE = GLFW_PRESS) (hfuel : n + 2 ≤ fuel) :
    (main env fuel).exit = some 0 ∧
    (main env fuel).world.polls = n + 1 ∧
    (main env fuel).world.calls =
      startupCalls env ++ contextCalls env ++ setupCalls env ++
        (List.range (n + 1)).flatMap (specIteration env) ++
        [.glfwWindowShouldClose env.createWindow, .glfwTerminate] ∧
    Call.glfwSetWindowShouldClose env.createWindow 1 ∈ specIteration env n ∧
    (main env fuel).world.shouldClose ≠ 0 ∧
    (∀ fuel', (main env fuel').world.polls ≤ n + 1) ∧
    (∀ (window : Nat) (w : World),
      (env.keyState w.polls GLFW_KEY_ESCAPE = GLFW_PRESS →
        (processInput env window w).shouldClose = 1) ∧
      (env.keyState w.polls GLFW_KEY_ESCAPE ≠ GLFW_PRESS →
        (processInput env window w).shouldClose = w.shouldClose)) := by
  obtain ⟨-, -, -, -, -, s6, s7, s8, -⟩ := readyWorld_state env
  have hcl : closes env n := Or.inl hkey
  have hpolls : ∀ f, n + 2 ≤ f → (main env f).world.polls = n + 1 := by
    intro f hf
    have h := renderLoop_exit env n f (readyWorld env) s8 s7 (by omega)
      (fun j _ hj => hreach j hj) hcl (by omega)
    rw [main_eq, if_neg hw, if_neg hg, h.1]
    simpa [glfwTerminate, World.log] using h.2
  have hexit := main_terminates env fuel n hw hg hcl hfuel
  obtain ⟨m, -, h1, -, h3, -, -, -, -, -, h9⟩ := main_ok env fuel hw hg
  have hm : m = n + 1 := by rw [← h3]; exact hpolls fuel hfuel
  subst hm
  refine ⟨hexit, hpolls fuel hfuel, ?_, ?_, h9 hexit, ?_, ?_⟩
  · rw [h1, hexit]; rfl
  · simp [specIteration, hkey]
  · intro f
    by_cases hf : n + 2 ≤ f
    · rw [hpolls f hf]
    · obtain ⟨k, hk, -, -, hk3, -⟩ := main_ok env f hw hg
      omega
  · intro window w
    rw [processInput_eq]
    exact ⟨fun h => by simp [h], fun h => by simp [h]⟩

/-- Witness for C7: escape is pressed in the second iteration (`n = 1`) of
`envGood`; the first iteration does not close. -/
theorem C7_escape_closes_witness :
    (main envGood 5).exit = some 0 ∧ (main envGood 5).world.polls = 2 :=
  ⟨(C7_escape_closes envGood 1 5 (by decide) (by decide) (by decide) (by decide)
      (by decide)).1,
   (C7_escape_closes envGood 1 5 (by decide) (by decide) (by decide) (by decide)
      (by decide)).2.1⟩

theorem viewportAfter_no_resize (evs : List Event) (v : Viewport)
    (h : ∀ width height, Event.resize width height ∉ evs) : viewportAfter evs v = v := by
  induction evs generalizing v with
  | nil => rfl
  | cons e evs ih =>
    cases e with
    | close =>
      simp only [viewportAfter, List.foldl_cons]
      exact ih v (fun width height hm => h width height (List.mem_cons_of_mem _ hm))
    | resize width height => exact absurd (List.mem_cons_self _ _) (h width height)

theorem viewportRounds_no_resize (env : Env) (start n : Nat) (v : Viewport)
    (h : ∀ i, start ≤ i → i < start + n → ∀ width height,
      Event.resize width height ∉ env.events i) :
    viewportRounds env start n v = v := by
  induction n generalizing start v with
  | zero => rfl
  | succ n ih =>
    simp only [viewportRounds, List.range'_succ, List.foldl_cons]
    rw [viewportAfter_no_resize _ _ (h start (le_refl _) (by omega))]
    exact ih (start + 1) v (fun i h1 h2 => h i (by omega) (by omega))

theorem viewportAfter_resize_last (evs : List Event) (width height : Int) (v : Viewport) :
    viewportAfter (evs ++ [.resize width height]) v = ⟨0, 0, width, height⟩ := by
  simp [viewportAfter, List.foldl_append]

/-- Claim C8: `framebuffer_size_callback(window, W, H)` makes the one call
`glViewport(0, 0, W, H)`, after which the viewport is (0, 0, W, H) and every
other part of the state is as before; a resize event runs exactly this callback,
so a round of events that ends with a resize to (W, H) leaves that viewport; as
long as no resize event has occurred the viewport is (0, 0, 800, 600), the size
the window was created with. -/
theorem C8_viewport (env : Env) (fuel window : Nat) (W H : Int) (w : World) :
    framebuffer_size_callback window W H w =
      { w with calls := w.calls ++ [.glViewport 0 0 W H], viewport := ⟨0, 0, W, H⟩ } ∧
    (w.resizeCallback = true →
      dispatch env (.resize W H) w = framebuffer_size_callback env.createWindow W H w) ∧
    (w.resizeCallback = true → ∀ evs, env.events w.polls = evs ++ [.resize W H] →
      (glfwPollEvents env w).viewport = ⟨0, 0, W, H⟩) ∧
    (env.createWindow ≠ 0 → env.gladLoad ≠ 0 →
      (∀ i < fuel, ∀ width height, Event.resize width height ∉ env.events i) →
      (main env fuel).world.viewport = ⟨0, 0, WIDTH, HEIGHT⟩ ∧
      Call.glfwCreateWindow WIDTH HEIGHT "soup" 0 0 ∈ (main env fuel).world.calls ∧
      WIDTH = 800 ∧ HEIGHT = 600) := by
  refine ⟨rfl, fun h => by simp [dispatch, h], ?_, ?_⟩
  · intro hcb evs hev
    rw [glfwPollEvents_eq env w hcb, hev]
    exact viewportAfter_resize_last evs W H w.viewport
  · intro hw hg hno
    obtain ⟨n, hn, h1, -, -, -, -, -, h7, -⟩ := main_ok env fuel hw hg
    refine ⟨?_, ?_, rfl, rfl⟩
    · rw [h7, viewportRounds_no_resize env 0 n _ (fun i _ h2 => hno i (by omega))]
      rfl
    · rw [h1]
      simp [startupCalls]

/-- Witness for C8: in `envGood` the window is resized to 640x480 in the first
round of events; before that (no iteration yet) the viewport is 800x600. -/
theorem C8_viewport_witness :
    (main envGood 0).world.viewport = ⟨0, 0, 800, 600⟩ ∧
    (glfwPollEvents envGood { World.init with resizeCallback := true }).viewport =
      ⟨0, 0, 640, 480⟩ :=
  ⟨((C8_viewport envGood 0 7 640 480 { World.init with resizeCallback := true }).2.2.2
      (by decide) (by decide) (by intro i hi; omega)).1,
   (C8_viewport envGood 0 7 640 480 { World.init with resizeCallback := true }).2.2.1
      rfl [] rfl⟩

/-- Claim C9 does not hold of the code: in every execution that reaches the
geometry set-up the vertex data is uploaded three times (lines 128, 131 and
141), each time the same 36 bytes into the buffer bound to `GL_ARRAY_BUFFER`;
the buffer holds the nine values from then on. -/
theorem C9_three_uploads (env : Env) (fuel : Nat) (hw : env.createWindow ≠ 0)
    (hg : env.gladLoad ≠ 0) :
    (main env fuel).world.calls.filter isBufferData =
      [.glBufferData GL_ARRAY_BUFFER 36 vertices GL_STATIC_DRAW,
       .glBufferData GL_ARRAY_BUFFER 36 vertices GL_STATIC_DRAW,
       .glBufferData GL_ARRAY_BUFFER 36 vertices GL_STATIC_DRAW] ∧
    ((main env fuel).world.calls.filter isBufferData).length = 3 ∧
    (main env fuel).world.buffers env.genBuffer = vertices := by
  obtain ⟨n, -, h1, -, -, -, h5, -⟩ := main_ok env fuel hw hg
  have h : (main env fuel).world.calls.filter isBufferData =
      [.glBufferData GL_ARRAY_BUFFER 36 vertices GL_STATIC_DRAW,
       .glBufferData GL_ARRAY_BUFFER 36 vertices GL_STATIC_DRAW,
       .glBufferData GL_ARRAY_BUFFER 36 vertices GL_STATIC_DRAW] := by
    rw [h1, List.append_assoc, List.filter_append, setupPrefix_filter_bufferData,
      filter_loopPart_all env n _ isBufferData isBufferData_not_phase]
    rfl
  exact ⟨h, by rw [h]; rfl, h5⟩

/-- Evaluation at the failing input of C9: a run in which everything succeeds
makes three `glBufferData` calls. -/
theorem C9_three_uploads_witness :
    ((main envGood 5).world.calls.filter isBufferData).length = 3 :=
  (C9_three_uploads envGood 5 (by decide) (by decide)).2.1

/-- Claim C10: once the loader is initialised, the calls of `main` contain, in
this order, the attachment of the vertex shader, the attachment of the fragment
shader and the link of the program, then (after the link status check, which
names no shader) the deletion of the vertex shader and of the fragment shader;
these are the only `glDeleteShader` calls, so each of two distinct shader
objects is deleted exactly once; all of this precedes the first call of the
render loop, and no call after the deletions names a shader object. -/
theorem C10_shader_lifetime (env : Env) (fuel : Nat) (hw : env.createWindow ≠ 0)
    (hg : env.gladLoad ≠ 0) :
    (∃ pre mid post,
      (main env fuel).world.calls =
        pre ++
        [.glAttachShader env.createProgram (env.createShader GL_VERTEX_SHADER),
         .glAttachShader env.createProgram (env.createShader GL_FRAGMENT_SHADER),
         .glLinkProgram env.createProgram] ++
        mid ++
        [.glDeleteShader (env.createShader GL_VERTEX_SHADER),
         .glDeleteShader (env.createShader GL_FRAGMENT_SHADER)] ++
        post ∧
      (∀ c ∈ pre, isRenderLoopCall c = false ∧ isDeleteShader c = false) ∧
      (∀ c ∈ mid, isRenderLoopCall c = false ∧ c.shaderArg = none) ∧
      (∀ c ∈ post, c.shaderArg = none)) ∧
    (main env fuel).world.calls.filter isDeleteShader =
      [.glDeleteShader (env.createShader GL_VERTEX_SHADER),
       .glDeleteShader (env.createShader GL_FRAGMENT_SHADER)] ∧
    (env.createShader GL_VERTEX_SHADER ≠ env.createShader GL_FRAGMENT_SHADER →
      (main env fuel).world.calls.count (.glDeleteShader (env.createShader GL_VERTEX_SHADER)) = 1 ∧
      (main env fuel).world.calls.count (.glDeleteShader (env.createShader GL_FRAGMENT_SHADER))
        = 1 ∧
      (Call.glDeleteShader (env.createShader GL_FRAGMENT_SHADER)).shaderArg ≠
        some (env.createShader GL_VERTEX_SHADER)) := by
  obtain ⟨n, -, h1, -⟩ := main_ok env fuel hw hg
  have hdel : (main env fuel).world.calls.filter isDeleteShader =
      [.glDeleteShader (env.createShader GL_VERTEX_SHADER),
       .glDeleteShader (env.createShader GL_FRAGMENT_SHADER)] := by
    rw [h1, List.append_assoc, List.filter_append, setupPrefix_filter_deleteShader,
      filter_loopPart_all env n _ isDeleteShader isDeleteShader_not_phase]
    rfl
  refine ⟨⟨startupCalls env ++ contextCalls env ++ [.glViewport 0 0 800 600] ++
      compileCalls env GL_VERTEX_SHADER vertexShaderSource ++
      compileCalls env GL_FRAGMENT_SHADER fragmentShaderSource ++ [.glCreateProgram],
    linkCheckCalls env,
    geometryCalls env ++ ((List.range n).flatMap (specIteration env) ++
      closingCalls env (main env fuel).exit), ?_, ?_, ?_, ?_⟩, hdel, ?_⟩
  · rw [h1]
    simp [setupCalls, shaderCalls, List.append_assoc]
  · have h : (startupCalls env ++ contextCalls env ++ [Call.glViewport 0 0 800 600] ++
        compileCalls env GL_VERTEX_SHADER vertexShaderSource ++
        compileCalls env GL_FRAGMENT_SHADER fragmentShaderSource ++ [Call.glCreateProgram]).all
        (fun c => !isRenderLoopCall c && !isDeleteShader c) = true := by
      unfold startupCalls contextCalls compileCalls
      split_ifs <;> rfl
    intro c hc
    simpa using List.all_eq_true.mp h c hc
  · have h : (linkCheckCalls env).all
        (fun c => !isRenderLoopCall c && c.shaderArg.isNone) = true := by
      unfold linkCheckCalls
      split_ifs <;> rfl
    intro c hc
    simpa using List.all_eq_true.mp h c hc
  · intro c hc
    rw [List.mem_append] at hc
    rcases hc with hc | hc
    · exact geometryCalls_no_shader env c hc
    · exact shaderArg_of_phase c (loopPart_phase env n _ c hc)
  · intro hne
    have hne2 : env.createShader GL_FRAGMENT_SHADER ≠ env.createShader GL_VERTEX_SHADER :=
      fun h => hne h.symm
    refine ⟨?_, ?_, ?_⟩
    · rw [← List.count_filter (p := isDeleteShader) (by rfl), hdel]
      simp [List.count_cons, hne2]
    · rw [← List.count_filter (p := isDeleteShader) (by rfl), hdel]
      simp [List.count_cons, hne]
    · simpa [Call.shaderArg] using hne2

/-- Witness for C10: a run in which everything succeeds; the shaders have the
names 1 and 2. -/
theorem C10_shader_lifetime_witness :
    (main envGood 5).world.calls.filter isDeleteShader =
      [.glDeleteShader 1, .glDeleteShader 2] ∧
    (main envGood 5).world.calls.count (.glDeleteShader 1) = 1 :=
  ⟨(C10_shader_lifetime envGood 5 (by decide) (by decide)).2.1,
   ((C10_shader_lifetime envGood 5 (by decide) (by decide)).2.2 (by decide)).1⟩

end CodeSoup
